import Mathlib

/-!
# SimPhotonCounter (larana, OpticalDetector/SimPhotonCounter_module.cc)

A shallow embedding of `opdet::SimPhotonCounter::analyze` and theorems about it.

Modelling conventions

* A finite `Float_t` / `float` / `double` value (time, QE, band limits, draws, energies) is the
  rational number it denotes, and the comparisons of the source are exact on the values
  compared.  The wavelength is a `FloatValue`, which may be infinite or NaN.
* The quotient of lines 262 and 286 is evaluated in `double` and stored in a `Float_t`.  The
  result of that evaluation is a parameter of the embedding, `Arithmetic.divide`, and the
  theorems hold for every arithmetic unless they name one.  `ieee` is the IEEE 754 arithmetic
  of the machine, with both roundings; `exactArithmetic` is the arithmetic without rounding.
* The product of lines 370 and 395 is an `int`, reduced to 32 bits by `toInt`, and its
  conversion to `Float_t` is `toFloat_t`.
* `Int_t` counters are integers.  Signed overflow is undefined in C++, so the model describes
  the executions in which no counter reaches `2^31`.
* A `TTree` is the list of the rows filled so far; `Fill()` appends the current value of the
  data members bound to the branches in `beginJob`.
* `CLHEP::RandFlat::fire` reads the next value of a stream `flat : ℕ → ℚ`; the number of values
  read so far is the field `fired`.
* `std::cout` is a list of diagnostic items, the library of the `PhotonVisibilityService` is the
  list of the `SetLibraryEntry` calls made so far.
-/

namespace opdet

/-! ## Data model -/

/-- Value of a floating-point expression: a finite number, an infinity or NaN. -/
inductive FloatValue where
  | finite (q : ℚ)
  | posInf
  | negInf
  | NaN
  deriving DecidableEq, Repr

/-- The comparison `a < b` of C++ on floating-point values: false when either side is NaN. -/
def FloatValue.lt : FloatValue → FloatValue → Prop
  | .finite x, .finite y => x < y
  | .finite _, .posInf => True
  | .negInf, .finite _ => True
  | .negInf, .posInf => True
  | _, _ => False

instance : LT FloatValue := ⟨FloatValue.lt⟩

instance FloatValue.decLt : (a b : FloatValue) → Decidable (a < b)
  | .finite x, .finite y => inferInstanceAs (Decidable (x < y))
  | .finite _, .posInf => isTrue trivial
  | .finite _, .negInf => isFalse id
  | .finite _, .NaN => isFalse id
  | .posInf, .finite _ => isFalse id
  | .posInf, .posInf => isFalse id
  | .posInf, .negInf => isFalse id
  | .posInf, .NaN => isFalse id
  | .negInf, .finite _ => isTrue trivial
  | .negInf, .posInf => isTrue trivial
  | .negInf, .negInf => isFalse id
  | .negInf, .NaN => isFalse id
  | .NaN, .finite _ => isFalse id
  | .NaN, .posInf => isFalse id
  | .NaN, .negInf => isFalse id
  | .NaN, .NaN => isFalse id

/-- Floating-point evaluation that the embedding takes as given: `divide a b` is the `Float_t`
that the source obtains for the quotient of the real numbers `a` and `b`, by evaluating it in
`double` and converting the result. -/
structure Arithmetic where
  divide : ℚ → ℚ → FloatValue

/-- Arithmetic without rounding: the quotient itself, and for a zero divisor the infinity of
the sign of the dividend, NaN for `0 / 0`. -/
def exactArithmetic : Arithmetic where
  divide a b :=
    if b = 0 then (if 0 < a then .posInf else if a < 0 then .negInf else .NaN)
    else .finite (a / b)

/-- Round to nearest, ties to even, of `x` to a significand of `p` bits whose last place has
an exponent of at least `emin`; the exponent is not bounded above. -/
def nearest (p : Nat) (emin : Int) (x : ℚ) : ℚ :=
  if x = 0 then 0
  else
    let e : Int := max (Int.log 2 |x| - ((p : Int) - 1)) emin
    let y : ℚ := |x| / 2 ^ e
    let f : Int := ⌊y⌋
    let m : Int := if 1 / 2 < y - f ∨ (y - f = 1 / 2 ∧ f % 2 = 1) then f + 1 else f
    if 0 < x then m * 2 ^ e else -(m * 2 ^ e)

/-- Value of `x` in the binary format with `p` bits of significand, least exponent `emin` of
the last place and finite values below `2 ^ emax`: the nearest value of the format, an
infinity when that does not fit. -/
def roundTo (p : Nat) (emin emax : Int) (x : ℚ) : FloatValue :=
  let r := nearest p emin x
  if (2 : ℚ) ^ emax ≤ |r| then (if 0 < x then .posInf else .negInf) else .finite r

/-- Value of `x` as a `double` (IEEE 754 binary64). -/
def toDouble (x : ℚ) : FloatValue := roundTo 53 (-1074) 1024 x

/-- Value of `x` as a `Float_t` (IEEE 754 binary32). -/
def toFloat (x : ℚ) : FloatValue := roundTo 24 (-149) 128 x

/-- IEEE 754 arithmetic: the dividend is the `double` nearest to `a` (for the constant of the
source this is the `double` that its two products give, `toDouble_product`), the quotient is
rounded to `double` and then to `Float_t`.  A zero divisor stands for `+0`. -/
def ieee : Arithmetic where
  divide a b :=
    match toDouble a with
    | .finite n =>
      if b = 0 then (if 0 < n then .posInf else if n < 0 then .negInf else .NaN)
      else
        match toDouble (n / b) with
        | .finite d => toFloat d
        | v => v
    | .posInf => if b < 0 then .negInf else .posInf
    | .negInf => if b < 0 then .posInf else .negInf
    | .NaN => .NaN

/-- Value of an `int` expression whose exact value is `n`: the 32 bits of two's complement
that the machine operation leaves.  It is `n` itself unless the expression overflows. -/
def toInt (n : Int) : Int := (n + 2147483648) % 4294967296 - 2147483648

/-- Number of low bits that an integer of absolute value `a` loses when it is stored with a
significand of 24 bits (`k` bounds the search). -/
def dropBits : Nat → Nat → Nat
  | 0, _ => 0
  | k + 1, a => if a < 2 ^ 24 then 0 else dropBits k (a / 2) + 1

/-- Conversion of the `int` value `n` to `Float_t` (IEEE 754 binary32, round to nearest, ties
to even): the bits below the 24 leading ones are rounded away. -/
def toFloat_t (n : Int) : ℚ :=
  let a := n.natAbs
  let e := dropBits a a
  let q := a / 2 ^ e
  let r := a % 2 ^ e
  let m := if 2 * r > 2 ^ e ∨ (2 * r = 2 ^ e ∧ q % 2 = 1) then q + 1 else q
  if n < 0 then -((m * 2 ^ e : Nat) : ℚ) else ((m * 2 ^ e : Nat) : ℚ)

/-- Members of `sim::OnePhoton` read by the analyzer. -/
structure OnePhoton where
  Energy : ℚ
  Time : ℚ
  deriving DecidableEq, Repr

/-- Record `sim::SimPhotonsLite`: `DetectedPhotons` is the `std::map<int,int>` given by its
entries in iteration order (ascending key). -/
structure SimPhotonsLite where
  OpChannel : Int
  DetectedPhotons : List (Int × Int)
  deriving DecidableEq, Repr

/-- Row of the trees `AllPhotons` and `DetectedPhotons` (branches of lines 164-167, 173-176). -/
structure PhotonRow where
  EventID : Int
  Wavelength : FloatValue
  OpChannel : Int
  Time : ℚ
  deriving DecidableEq, Repr

/-- Row of the tree `OpDets` (branches of lines 182-185). -/
structure OpDetRow where
  EventID : Int
  OpChannel : Int
  CountAll : Int
  CountDetected : Int
  deriving DecidableEq, Repr

/-- Row of the tree `OpDetEvents` (branches of lines 191-193). -/
structure EventRow where
  EventID : Int
  CountAll : Int
  CountDetected : Int
  deriving DecidableEq, Repr

/-- Result of the `double` division `a / b` of line 307: `none` stands for the non-finite
value (infinity or NaN) that a division by zero produces. -/
def fdiv (a b : ℚ) : Option ℚ := if b = 0 then none else some (a / b)

/-- Arguments of one call `SetLibraryEntry(VoxID, OpChannel, Visibility)`. -/
structure LibraryEntry where
  VoxID : Int
  OpChannel : Int
  Visibility : Option ℚ
  deriving DecidableEq, Repr

/-- What `phot::PhotonVisibilityService` answers during one event: `IsBuildJob()` and the two
values handed back by `RetrieveLightProd`. -/
structure PhotonVisibilityService where
  IsBuildJob : Bool
  VoxID : Int
  NProd : ℚ
  deriving DecidableEq, Repr

/-- Item written to `std::cout`. -/
inductive Diag where
  | found (size : Nat)
  | arrivalTime (fTime : ℚ)
  | perPhoton (fEventID fOpChannel : Int) (fWavelength : FloatValue) (detected : Bool)
  | perOpDet (fEventID fOpChannel fCountOpDetAll fCountOpDetDetected : Int)
  | perEvent (fEventID fCountOpDetAll fCountOpDetDetected : Int)
  deriving DecidableEq, Repr

/-- The "parameters to read in" of the class (lines 95-107), set by the constructor. -/
structure Parameters where
  fVerbosity : Int
  fMakeDetectedPhotonsTree : Bool
  fMakeAllPhotonsTree : Bool
  fMakeOpDetsTree : Bool
  fMakeOpDetEventsTree : Bool
  fQE : ℚ
  fWavelengthCutLow : ℚ
  fWavelengthCutHigh : ℚ
  deriving DecidableEq, Repr

/-- The "data to store in trees" of the class (lines 114-124), the contents of the four trees,
and the state of the services `analyze` writes to. -/
structure SimPhotonCounter where
  fWavelength : FloatValue
  fTime : ℚ
  fCountOpDetAll : Int
  fCountOpDetDetected : Int
  fCountEventAll : Int
  fCountEventDetected : Int
  fEventID : Int
  fOpChannel : Int
  fThePhotonTreeAll : List PhotonRow
  fThePhotonTreeDetected : List PhotonRow
  fTheOpDetTree : List OpDetRow
  fTheEventTree : List EventRow
  fired : Nat
  library : List LibraryEntry
  cout : List Diag
  deriving DecidableEq, Repr

/-- What `analyze` reads from `art::Event`: the event number as `Int_t(evt.id().event())`,
the `sim::SimPhotonsCollection` (a map from channel to photons, in iteration order) and the
vector of `sim::SimPhotonsLite` stored under the label `largeant`. -/
structure Event where
  event : Int
  TheHitCollection : List (Int × List OnePhoton)
  photonHandle : List SimPhotonsLite
  deriving DecidableEq, Repr

/-! ## Tree filling and output -/

/-- Call `fThePhotonTreeAll->Fill()`. -/
def fillPhotonTreeAll (s : SimPhotonCounter) : SimPhotonCounter :=
  { s with fThePhotonTreeAll :=
      s.fThePhotonTreeAll ++ [⟨s.fEventID, s.fWavelength, s.fOpChannel, s.fTime⟩] }

/-- Call `fThePhotonTreeDetected->Fill()`. -/
def fillPhotonTreeDetected (s : SimPhotonCounter) : SimPhotonCounter :=
  { s with fThePhotonTreeDetected :=
      s.fThePhotonTreeDetected ++ [⟨s.fEventID, s.fWavelength, s.fOpChannel, s.fTime⟩] }

/-- Call `fTheOpDetTree->Fill()`. -/
def fillOpDetTree (s : SimPhotonCounter) : SimPhotonCounter :=
  { s with fTheOpDetTree :=
      s.fTheOpDetTree ++ [⟨s.fEventID, s.fOpChannel, s.fCountOpDetAll, s.fCountOpDetDetected⟩] }

/-- Call `fTheEventTree->Fill()`. -/
def fillEventTree (s : SimPhotonCounter) : SimPhotonCounter :=
  { s with fTheEventTree :=
      s.fTheEventTree ++ [⟨s.fEventID, s.fCountEventAll, s.fCountEventDetected⟩] }

/-- Statement `std::cout << ... << std::endl`. -/
def print (d : Diag) (s : SimPhotonCounter) : SimPhotonCounter :=
  { s with cout := s.cout ++ [d] }

/-- Call `flat.fire(1.0)`: the next value of the stream, and the engine advanced by one. -/
def fire (flat : Nat → ℚ) (s : SimPhotonCounter) : ℚ × SimPhotonCounter :=
  (flat s.fired, { s with fired := s.fired + 1 })

/-! ## Itemized input (`!fUseLitePhotons`, lines 230-332) -/

/-- Body of the photon loop of lines 259-279 (`fVerbosity > 3`). -/
def photonBodyVerbose (fp : Arithmetic) (cfg : Parameters) (flat : Nat → ℚ)
    (s : SimPhotonCounter) (Phot : OnePhoton) : SimPhotonCounter :=
  let s := { s with fWavelength := fp.divide ((2.0 * 3.142) * 0.000197) Phot.Energy }
  let s := { s with fTime := Phot.Time }
  let s := print (.arrivalTime s.fTime) s
  let s := { s with fCountOpDetAll := s.fCountOpDetAll + 1 }
  let s := if cfg.fMakeAllPhotonsTree then fillPhotonTreeAll s else s
  let r := fire flat s
  let s := r.2
  if r.1 ≤ cfg.fQE ∧ s.fWavelength > .finite cfg.fWavelengthCutLow
      ∧ s.fWavelength < .finite cfg.fWavelengthCutHigh then
    let s := if cfg.fMakeDetectedPhotonsTree then fillPhotonTreeDetected s else s
    let s := { s with fCountOpDetDetected := s.fCountOpDetDetected + 1 }
    print (.perPhoton s.fEventID s.fOpChannel s.fWavelength true) s
  else
    print (.perPhoton s.fEventID s.fOpChannel s.fWavelength false) s

/-- Body of the photon loop of lines 283-297 (`fVerbosity ≤ 3`). -/
def photonBody (fp : Arithmetic) (cfg : Parameters) (flat : Nat → ℚ)
    (s : SimPhotonCounter) (Phot : OnePhoton) : SimPhotonCounter :=
  let s := { s with fWavelength := fp.divide ((2.0 * 3.142) * 0.000197) Phot.Energy }
  let s := { s with fTime := Phot.Time }
  let s := { s with fCountOpDetAll := s.fCountOpDetAll + 1 }
  let s := if cfg.fMakeAllPhotonsTree then fillPhotonTreeAll s else s
  let r := fire flat s
  let s := r.2
  if r.1 ≤ cfg.fQE ∧ s.fWavelength > .finite cfg.fWavelengthCutLow
      ∧ s.fWavelength < .finite cfg.fWavelengthCutHigh then
    let s := if cfg.fMakeDetectedPhotonsTree then fillPhotonTreeDetected s else s
    { s with fCountOpDetDetected := s.fCountOpDetDetected + 1 }
  else
    s

/-- Body of the loop over `TheHitCollection` (lines 242-317) for the entry `itOpDet`. -/
def opDetBody (fp : Arithmetic) (cfg : Parameters) (flat : Nat → ℚ)
    (pvs : PhotonVisibilityService) (s : SimPhotonCounter) (itOpDet : Int × List OnePhoton) :
    SimPhotonCounter :=
  let s := { s with fCountOpDetAll := 0 }
  let s := { s with fCountOpDetDetected := 0 }
  let s := { s with fOpChannel := itOpDet.1 }
  let TheHit := itOpDet.2
  let s :=
    if cfg.fVerbosity > 3 then TheHit.foldl (photonBodyVerbose fp cfg flat) s
    else TheHit.foldl (photonBody fp cfg flat) s
  let s :=
    if pvs.IsBuildJob then
      { s with library :=
          s.library ++ [⟨pvs.VoxID, s.fOpChannel, fdiv (s.fCountOpDetAll : ℚ) pvs.NProd⟩] }
    else s
  let s := if cfg.fMakeOpDetsTree then fillOpDetTree s else s
  let s := { s with fCountEventAll := s.fCountEventAll + s.fCountOpDetAll }
  let s := { s with fCountEventDetected := s.fCountEventDetected + s.fCountOpDetDetected }
  if cfg.fVerbosity > 2 then
    print (.perOpDet s.fEventID s.fOpChannel s.fCountOpDetAll s.fCountOpDetDetected) s
  else s

/-! ## Bucketed input (`fUseLitePhotons`, lines 337-431) -/

/-- Body of the loop `for(int i = 0; i < it->second; i++)` of lines 373-386
(`fVerbosity > 3`). -/
def liteBodyVerbose (cfg : Parameters) (flat : Nat → ℚ) (s : SimPhotonCounter) :
    SimPhotonCounter :=
  let s := { s with fCountOpDetAll := s.fCountOpDetAll + 1 }
  let s := if cfg.fMakeAllPhotonsTree then fillPhotonTreeAll s else s
  let r := fire flat s
  let s := r.2
  if r.1 ≤ cfg.fQE ∧ s.fWavelength > .finite cfg.fWavelengthCutLow
      ∧ s.fWavelength < .finite cfg.fWavelengthCutHigh then
    let s := if cfg.fMakeDetectedPhotonsTree then fillPhotonTreeDetected s else s
    let s := { s with fCountOpDetDetected := s.fCountOpDetDetected + 1 }
    print (.perPhoton s.fEventID s.fOpChannel s.fWavelength true) s
  else
    print (.perPhoton s.fEventID s.fOpChannel s.fWavelength false) s

/-- Body of the loop `for(int i = 0; i < it->second; i++)` of lines 397-407
(`fVerbosity ≤ 3`). -/
def liteBody (cfg : Parameters) (flat : Nat → ℚ) (s : SimPhotonCounter) : SimPhotonCounter :=
  let s := { s with fCountOpDetAll := s.fCountOpDetAll + 1 }
  let s := if cfg.fMakeAllPhotonsTree then fillPhotonTreeAll s else s
  let r := fire flat s
  let s := r.2
  if r.1 ≤ cfg.fQE ∧ s.fWavelength > .finite cfg.fWavelengthCutLow
      ∧ s.fWavelength < .finite cfg.fWavelengthCutHigh then
    let s := if cfg.fMakeDetectedPhotonsTree then fillPhotonTreeDetected s else s
    { s with fCountOpDetDetected := s.fCountOpDetDetected + 1 }
  else
    s

/-- Body of the loop over `PhotonsMap` of lines 364-387 (`fVerbosity > 3`) for the entry `it`:
the inner loop runs `it->second` times, and not at all when `it->second ≤ 0`. -/
def bucketBodyVerbose (cfg : Parameters) (flat : Nat → ℚ) (s : SimPhotonCounter)
    (it : Int × Int) : SimPhotonCounter :=
  let s := { s with fWavelength := .finite 128 }
  let s := { s with fTime := toFloat_t (toInt (it.1 * 2)) }
  let s := print (.arrivalTime s.fTime) s
  Nat.iterate (liteBodyVerbose cfg flat) it.2.toNat s

/-- Body of the loop over `PhotonsMap` of lines 391-408 (`fVerbosity ≤ 3`) for the entry `it`:
the inner loop runs `it->second` times, and not at all when `it->second ≤ 0`. -/
def bucketBody (cfg : Parameters) (flat : Nat → ℚ) (s : SimPhotonCounter)
    (it : Int × Int) : SimPhotonCounter :=
  let s := { s with fWavelength := .finite 128 }
  let s := { s with fTime := toFloat_t (toInt (it.1 * 2)) }
  Nat.iterate (liteBody cfg flat) it.2.toNat s

/-- Body of the loop over `*photonHandle` (lines 354-417) for the element `photon`. -/
def liteOpDetBody (cfg : Parameters) (flat : Nat → ℚ) (s : SimPhotonCounter)
    (photon : SimPhotonsLite) : SimPhotonCounter :=
  let s := { s with fOpChannel := photon.OpChannel }
  let PhotonsMap := photon.DetectedPhotons
  let s := { s with fCountOpDetAll := 0 }
  let s := { s with fCountOpDetDetected := 0 }
  let s :=
    if cfg.fVerbosity > 3 then PhotonsMap.foldl (bucketBodyVerbose cfg flat) s
    else PhotonsMap.foldl (bucketBody cfg flat) s
  let s := if cfg.fMakeOpDetsTree then fillOpDetTree s else s
  let s := { s with fCountEventAll := s.fCountEventAll + s.fCountOpDetAll }
  let s := { s with fCountEventDetected := s.fCountEventDetected + s.fCountOpDetDetected }
  if cfg.fVerbosity > 2 then
    print (.perOpDet s.fEventID s.fOpChannel s.fCountOpDetAll s.fCountOpDetDetected) s
  else s

/-! ## The analyzer -/

/-- Method `SimPhotonCounter::analyze` (lines 213-433); `fUseLitePhotons` is the answer of
`sim::LArG4Parameters::UseLitePhotons()`. -/
def analyze (fp : Arithmetic) (cfg : Parameters) (flat : Nat → ℚ)
    (pvs : PhotonVisibilityService) (fUseLitePhotons : Bool) (evt : Event)
    (s : SimPhotonCounter) : SimPhotonCounter :=
  let s := { s with fEventID := evt.event }
  if !fUseLitePhotons then
    let TheHitCollection := evt.TheHitCollection
    let s := { s with fCountEventAll := 0 }
    let s := { s with fCountEventDetected := 0 }
    let s := if cfg.fVerbosity > 0 then print (.found TheHitCollection.length) s else s
    if TheHitCollection.length > 0 then
      let s := TheHitCollection.foldl (opDetBody fp cfg flat pvs) s
      let s := if cfg.fMakeOpDetEventsTree then fillEventTree s else s
      if cfg.fVerbosity > 1 then
        print (.perEvent s.fEventID s.fCountOpDetAll s.fCountOpDetDetected) s
      else s
    else
      if cfg.fMakeOpDetEventsTree then fillEventTree s else s
  else
    let photonHandle := evt.photonHandle
    let s := { s with fCountEventAll := 0 }
    let s := { s with fCountEventDetected := 0 }
    let s := if cfg.fVerbosity > 0 then print (.found photonHandle.length) s else s
    if photonHandle.length > 0 then
      let s := photonHandle.foldl (liteOpDetBody cfg flat) s
      let s := if cfg.fMakeOpDetEventsTree then fillEventTree s else s
      if cfg.fVerbosity > 1 then
        print (.perEvent s.fEventID s.fCountOpDetAll s.fCountOpDetDetected) s
      else s
    else
      if cfg.fMakeOpDetEventsTree then fillEventTree s else s

/-! ## States and parameters of the worked examples -/

/-- State left by `beginJob` (lines 155-196): the trees exist and are empty, no draw has been
made, nothing is in the library; the data members, which C++ leaves uninitialised, are 0. -/
def beginJob : SimPhotonCounter :=
  { fWavelength := .finite 0, fTime := 0, fCountOpDetAll := 0, fCountOpDetDetected := 0,
    fCountEventAll := 0, fCountEventDetected := 0, fEventID := 0, fOpChannel := 0,
    fThePhotonTreeAll := [], fThePhotonTreeDetected := [], fTheOpDetTree := [],
    fTheEventTree := [], fired := 0, library := [], cout := [] }

/-- Parameter set of the worked examples: no screen output, the four trees made, quantum
efficiency `QE`, sensitive range from 100 to 200. -/
def exampleParameters (QE : ℚ) : Parameters :=
  { fVerbosity := 0, fMakeDetectedPhotonsTree := true, fMakeAllPhotonsTree := true,
    fMakeOpDetsTree := true, fMakeOpDetEventsTree := true, fQE := QE,
    fWavelengthCutLow := 100, fWavelengthCutHigh := 200 }

/-! ## Reference functions used to state the theorems -/

/-- Wavelength in nm that lines 262 and 286 assign to `fWavelength` for the photon `Phot`. -/
def wavelength (fp : Arithmetic) (Phot : OnePhoton) : FloatValue :=
  fp.divide ((2.0 * 3.142) * 0.000197) Phot.Energy

/-- Condition of the `if` of lines 271, 292, 378 and 402 for the draw `u` and the wavelength
`wl`. -/
def accepts (cfg : Parameters) (u : ℚ) (wl : FloatValue) : Prop :=
  u ≤ cfg.fQE ∧ wl > .finite cfg.fWavelengthCutLow ∧ wl < .finite cfg.fWavelengthCutHigh

instance (cfg : Parameters) (u : ℚ) (wl : FloatValue) : Decidable (accepts cfg u wl) := by
  unfold accepts; infer_instance

/-- The rows of `rows` whose photon is accepted, the photon at position `i` being judged with
the draw `flat (k + i)`. -/
def detectedFrom (cfg : Parameters) (flat : Nat → ℚ) : Nat → List PhotonRow → List PhotonRow
  | _, [] => []
  | k, r :: rs =>
    if accepts cfg (flat k) r.Wavelength then r :: detectedFrom cfg flat (k + 1) rs
    else detectedFrom cfg flat (k + 1) rs

/-- Detail rows of the photons of one itemized channel, in the order of the collection. -/
def photonRows (fp : Arithmetic) (ev ch : Int) (TheHit : List OnePhoton) : List PhotonRow :=
  TheHit.map fun Phot => ⟨ev, wavelength fp Phot, ch, Phot.Time⟩

/-- Detail rows of the photons of one bucketed channel: each entry of the map stands for
`count` photons (none when `count ≤ 0`) of wavelength 128 and of the time `2 * bucket`
converted to `Float_t`. -/
def liteRows (ev ch : Int) (PhotonsMap : List (Int × Int)) : List PhotonRow :=
  PhotonsMap.flatMap fun it =>
    List.replicate it.2.toNat ⟨ev, .finite 128, ch, toFloat_t (toInt (it.1 * 2))⟩

/-- The channels of the event that `analyze` visits, each with the detail rows of its
photons. -/
def opDetPhotons (fp : Arithmetic) (fUseLitePhotons : Bool) (evt : Event) :
    List (Int × List PhotonRow) :=
  if fUseLitePhotons then
    evt.photonHandle.map fun photon =>
      (photon.OpChannel, liteRows evt.event photon.OpChannel photon.DetectedPhotons)
  else
    evt.TheHitCollection.map fun itOpDet =>
      (itOpDet.1, photonRows fp evt.event itOpDet.1 itOpDet.2)

/-- Detail rows of all photons of the event, channel after channel. -/
def allPhotons (fp : Arithmetic) (fUseLitePhotons : Bool) (evt : Event) : List PhotonRow :=
  (opDetPhotons fp fUseLitePhotons evt).flatMap fun c => c.2

/-- Tally of each channel of `chans`, the draws of the first channel starting at position `k`
of the stream and each channel continuing where the previous one stopped. -/
def talliesFrom (cfg : Parameters) (flat : Nat → ℚ) (ev : Int) :
    Nat → List (Int × List PhotonRow) → List OpDetRow
  | _, [] => []
  | k, c :: cs =>
    ⟨ev, c.1, c.2.length, (detectedFrom cfg flat k c.2).length⟩ ::
      talliesFrom cfg flat ev (k + c.2.length) cs

/-- Summary of a run of photon-loop iterations from `s` to `t` that recorded the photons
`rows`: what the run leaves alone and what it adds. -/
structure Recorded (cfg : Parameters) (flat : Nat → ℚ) (rows : List PhotonRow)
    (s t : SimPhotonCounter) : Prop where
  fEventID : t.fEventID = s.fEventID
  fOpChannel : t.fOpChannel = s.fOpChannel
  fCountEventAll : t.fCountEventAll = s.fCountEventAll
  fCountEventDetected : t.fCountEventDetected = s.fCountEventDetected
  fTheOpDetTree : t.fTheOpDetTree = s.fTheOpDetTree
  fTheEventTree : t.fTheEventTree = s.fTheEventTree
  library : t.library = s.library
  fired : t.fired = s.fired + rows.length
  fCountOpDetAll : t.fCountOpDetAll = s.fCountOpDetAll + rows.length
  fCountOpDetDetected :
    t.fCountOpDetDetected = s.fCountOpDetDetected + (detectedFrom cfg flat s.fired rows).length
  fThePhotonTreeAll :
    t.fThePhotonTreeAll = s.fThePhotonTreeAll ++ (if cfg.fMakeAllPhotonsTree then rows else [])
  fThePhotonTreeDetected :
    t.fThePhotonTreeDetected = s.fThePhotonTreeDetected ++
      (if cfg.fMakeDetectedPhotonsTree then detectedFrom cfg flat s.fired rows else [])

/-- Summary of one iteration of the channel loop, from `s` to `t`, for the channel `ch` whose
photons are `rows` and whose `SetLibraryEntry` calls are `lib`. -/
structure Tallied (cfg : Parameters) (flat : Nat → ℚ) (ch : Int) (rows : List PhotonRow)
    (lib : List LibraryEntry) (s t : SimPhotonCounter) : Prop where
  fEventID : t.fEventID = s.fEventID
  fOpChannel : t.fOpChannel = ch
  fTheEventTree : t.fTheEventTree = s.fTheEventTree
  fired : t.fired = s.fired + rows.length
  fCountOpDetAll : t.fCountOpDetAll = rows.length
  fCountOpDetDetected : t.fCountOpDetDetected = (detectedFrom cfg flat s.fired rows).length
  fCountEventAll : t.fCountEventAll = s.fCountEventAll + rows.length
  fCountEventDetected :
    t.fCountEventDetected = s.fCountEventDetected + (detectedFrom cfg flat s.fired rows).length
  fThePhotonTreeAll :
    t.fThePhotonTreeAll = s.fThePhotonTreeAll ++ (if cfg.fMakeAllPhotonsTree then rows else [])
  fThePhotonTreeDetected :
    t.fThePhotonTreeDetected = s.fThePhotonTreeDetected ++
      (if cfg.fMakeDetectedPhotonsTree then detectedFrom cfg flat s.fired rows else [])
  fTheOpDetTree :
    t.fTheOpDetTree = s.fTheOpDetTree ++
      (if cfg.fMakeOpDetsTree then
        [⟨s.fEventID, ch, rows.length, (detectedFrom cfg flat s.fired rows).length⟩]
      else [])
  library : t.library = s.library ++ lib

/-- The `SetLibraryEntry` calls of the itemized channel loop for the channels `chans`. -/
def libraryCalls (pvs : PhotonVisibilityService) (chans : List (Int × List OnePhoton)) :
    List LibraryEntry :=
  if pvs.IsBuildJob then
    chans.map fun itOpDet => ⟨pvs.VoxID, itOpDet.1, fdiv (itOpDet.2.length : ℚ) pvs.NProd⟩
  else []

/-- Summary of a run of channel-loop iterations from `s` to `t` over the channels `chans`
(channel number and photons of each), with the `SetLibraryEntry` calls `lib`. -/
structure Processed (cfg : Parameters) (flat : Nat → ℚ) (chans : List (Int × List PhotonRow))
    (lib : List LibraryEntry) (s t : SimPhotonCounter) : Prop where
  fEventID : t.fEventID = s.fEventID
  fTheEventTree : t.fTheEventTree = s.fTheEventTree
  fired : t.fired = s.fired + (chans.flatMap fun c => c.2).length
  fCountEventAll :
    t.fCountEventAll = s.fCountEventAll +
      ((talliesFrom cfg flat s.fEventID s.fired chans).map fun r => r.CountAll).sum
  fCountEventDetected :
    t.fCountEventDetected = s.fCountEventDetected +
      ((talliesFrom cfg flat s.fEventID s.fired chans).map fun r => r.CountDetected).sum
  fThePhotonTreeAll :
    t.fThePhotonTreeAll = s.fThePhotonTreeAll ++
      (if cfg.fMakeAllPhotonsTree then chans.flatMap fun c => c.2 else [])
  fThePhotonTreeDetected :
    t.fThePhotonTreeDetected = s.fThePhotonTreeDetected ++
      (if cfg.fMakeDetectedPhotonsTree then
        detectedFrom cfg flat s.fired (chans.flatMap fun c => c.2)
      else [])
  fTheOpDetTree :
    t.fTheOpDetTree = s.fTheOpDetTree ++
      (if cfg.fMakeOpDetsTree then talliesFrom cfg flat s.fEventID s.fired chans else [])
  library : t.library = s.library ++ lib

/-- Summary of `analyze` on the event `evt`, from `s` to `t`. -/
structure Analyzed (fp : Arithmetic) (cfg : Parameters) (flat : Nat → ℚ)
    (pvs : PhotonVisibilityService) (fUseLitePhotons : Bool) (evt : Event)
    (s t : SimPhotonCounter) : Prop where
  fEventID : t.fEventID = evt.event
  fired : t.fired = s.fired + (allPhotons fp fUseLitePhotons evt).length
  fCountEventAll :
    t.fCountEventAll =
      ((talliesFrom cfg flat evt.event s.fired (opDetPhotons fp fUseLitePhotons evt)).map
        fun r => r.CountAll).sum
  fCountEventDetected :
    t.fCountEventDetected =
      ((talliesFrom cfg flat evt.event s.fired (opDetPhotons fp fUseLitePhotons evt)).map
        fun r => r.CountDetected).sum
  fThePhotonTreeAll :
    t.fThePhotonTreeAll = s.fThePhotonTreeAll ++
      (if cfg.fMakeAllPhotonsTree then allPhotons fp fUseLitePhotons evt else [])
  fThePhotonTreeDetected :
    t.fThePhotonTreeDetected = s.fThePhotonTreeDetected ++
      (if cfg.fMakeDetectedPhotonsTree then
        detectedFrom cfg flat s.fired (allPhotons fp fUseLitePhotons evt)
      else [])
  fTheOpDetTree :
    t.fTheOpDetTree = s.fTheOpDetTree ++
      (if cfg.fMakeOpDetsTree then
        talliesFrom cfg flat evt.event s.fired (opDetPhotons fp fUseLitePhotons evt)
      else [])
  fTheEventTree :
    t.fTheEventTree = s.fTheEventTree ++
      (if cfg.fMakeOpDetEventsTree then [⟨evt.event, t.fCountEventAll, t.fCountEventDetected⟩]
      else [])
  library :
    t.library = s.library ++
      (if fUseLitePhotons then [] else libraryCalls pvs evt.TheHitCollection)

/-- Itemized channel that a bucketed record stands for, with photons of energy `E`: each
entry `(bucket, count)` of the map, in the order of the map, becomes `count` photons (none
when `count ≤ 0`) of energy `E` arriving at the time `2 * bucket`, a `float` as every photon
time is. -/
def expandWith (E : ℚ) (photon : SimPhotonsLite) : Int × List OnePhoton :=
  (photon.OpChannel,
    photon.DetectedPhotons.flatMap fun it =>
      List.replicate it.2.toNat ⟨E, toFloat_t (toInt (it.1 * 2))⟩)

/-- Itemized channel that a bucketed record stands for: the photons have the energy whose
wavelength is 128 in exact arithmetic. -/
def expand (photon : SimPhotonsLite) : Int × List OnePhoton :=
  expandWith ((2.0 * 3.142) * 0.000197 / 128) photon

/-- The state `s` with what was written to `std::cout` left out. -/
def quiet (s : SimPhotonCounter) : SimPhotonCounter := { s with cout := [] }

/-! ## Lemmas on the reference functions -/

theorem detectedFrom_append (cfg : Parameters) (flat : Nat → ℚ) (k : Nat)
    (a b : List PhotonRow) :
    detectedFrom cfg flat k (a ++ b) =
      detectedFrom cfg flat k a ++ detectedFrom cfg flat (k + a.length) b := by
  induction a generalizing k with
  | nil => simp [detectedFrom]
  | cons r rs ih =>
    have e : k + 1 + rs.length = k + (rs.length + 1) := by omega
    by_cases h : accepts cfg (flat k) r.Wavelength <;> simp [detectedFrom, h, ih, e]

theorem detectedFrom_length_le (cfg : Parameters) (flat : Nat → ℚ) (k : Nat)
    (rows : List PhotonRow) : (detectedFrom cfg flat k rows).length ≤ rows.length := by
  induction rows generalizing k with
  | nil => simp [detectedFrom]
  | cons r rs ih =>
    have := ih (k + 1)
    by_cases h : accepts cfg (flat k) r.Wavelength <;> simp [detectedFrom, h] <;> omega

theorem detectedFrom_subset (cfg : Parameters) (flat : Nat → ℚ) (k : Nat)
    (rows : List PhotonRow) : ∀ r ∈ detectedFrom cfg flat k rows, r ∈ rows := by
  induction rows generalizing k with
  | nil => simp [detectedFrom]
  | cons r rs ih =>
    intro x hx
    by_cases h : accepts cfg (flat k) r.Wavelength
    · simp only [detectedFrom, h, if_true, List.mem_cons] at hx
      rcases hx with rfl | hx
      · simp
      · exact List.mem_cons_of_mem _ (ih _ _ hx)
    · simp only [detectedFrom, h, if_false] at hx
      exact List.mem_cons_of_mem _ (ih _ _ hx)

/-! ## The photon loops -/

theorem recorded_nil (cfg : Parameters) (flat : Nat → ℚ) (s : SimPhotonCounter) :
    Recorded cfg flat [] s s := by
  constructor <;> simp [detectedFrom]

theorem recorded_append {cfg : Parameters} {flat : Nat → ℚ} {a b : List PhotonRow}
    {s t u : SimPhotonCounter} (h₁ : Recorded cfg flat a s t) (h₂ : Recorded cfg flat b t u) :
    Recorded cfg flat (a ++ b) s u where
  fEventID := by rw [h₂.fEventID, h₁.fEventID]
  fOpChannel := by rw [h₂.fOpChannel, h₁.fOpChannel]
  fCountEventAll := by rw [h₂.fCountEventAll, h₁.fCountEventAll]
  fCountEventDetected := by rw [h₂.fCountEventDetected, h₁.fCountEventDetected]
  fTheOpDetTree := by rw [h₂.fTheOpDetTree, h₁.fTheOpDetTree]
  fTheEventTree := by rw [h₂.fTheEventTree, h₁.fTheEventTree]
  library := by rw [h₂.library, h₁.library]
  fired := by rw [h₂.fired, h₁.fired, List.length_append]; omega
  fCountOpDetAll := by
    rw [h₂.fCountOpDetAll, h₁.fCountOpDetAll, List.length_append]; push_cast; ring
  fCountOpDetDetected := by
    rw [h₂.fCountOpDetDetected, h₁.fCountOpDetDetected, h₁.fired, detectedFrom_append,
      List.length_append]
    push_cast; ring
  fThePhotonTreeAll := by
    rw [h₂.fThePhotonTreeAll, h₁.fThePhotonTreeAll]
    cases cfg.fMakeAllPhotonsTree <;> simp
  fThePhotonTreeDetected := by
    rw [h₂.fThePhotonTreeDetected, h₁.fThePhotonTreeDetected, h₁.fired, detectedFrom_append]
    cases cfg.fMakeDetectedPhotonsTree <;> simp

theorem liteBody_recorded (cfg : Parameters) (flat : Nat → ℚ) (s : SimPhotonCounter) :
    Recorded cfg flat [⟨s.fEventID, s.fWavelength, s.fOpChannel, s.fTime⟩] s
      (liteBody cfg flat s) := by
  by_cases h : accepts cfg (flat s.fired) s.fWavelength
  · have h' := h
    unfold accepts at h'
    cases hA : cfg.fMakeAllPhotonsTree <;> cases hD : cfg.fMakeDetectedPhotonsTree <;>
      constructor <;>
      simp [liteBody, fire, fillPhotonTreeAll, fillPhotonTreeDetected, detectedFrom, h, h',
        hA, hD]
  · have h' := h
    unfold accepts at h'
    cases hA : cfg.fMakeAllPhotonsTree <;> cases hD : cfg.fMakeDetectedPhotonsTree <;>
      constructor <;>
      simp [liteBody, fire, fillPhotonTreeAll, fillPhotonTreeDetected, detectedFrom, h, h',
        hA, hD]

theorem liteBodyVerbose_recorded (cfg : Parameters) (flat : Nat → ℚ) (s : SimPhotonCounter) :
    Recorded cfg flat [⟨s.fEventID, s.fWavelength, s.fOpChannel, s.fTime⟩] s
      (liteBodyVerbose cfg flat s) := by
  by_cases h : accepts cfg (flat s.fired) s.fWavelength
  · have h' := h
    unfold accepts at h'
    cases hA : cfg.fMakeAllPhotonsTree <;> cases hD : cfg.fMakeDetectedPhotonsTree <;>
      constructor <;>
      simp [liteBodyVerbose, fire, fillPhotonTreeAll, fillPhotonTreeDetected, print,
        detectedFrom, h, h', hA, hD]
  · have h' := h
    unfold accepts at h'
    cases hA : cfg.fMakeAllPhotonsTree <;> cases hD : cfg.fMakeDetectedPhotonsTree <;>
      constructor <;>
      simp [liteBodyVerbose, fire, fillPhotonTreeAll, fillPhotonTreeDetected, print,
        detectedFrom, h, h', hA, hD]

theorem liteBody_fWavelength (cfg : Parameters) (flat : Nat → ℚ) (s : SimPhotonCounter) :
    (liteBody cfg flat s).fWavelength = s.fWavelength ∧ (liteBody cfg flat s).fTime = s.fTime := by
  unfold liteBody fire fillPhotonTreeAll fillPhotonTreeDetected
  constructor <;> (simp only []; split_ifs <;> rfl)

theorem liteBodyVerbose_fWavelength (cfg : Parameters) (flat : Nat → ℚ)
    (s : SimPhotonCounter) :
    (liteBodyVerbose cfg flat s).fWavelength = s.fWavelength ∧
      (liteBodyVerbose cfg flat s).fTime = s.fTime := by
  unfold liteBodyVerbose fire fillPhotonTreeAll fillPhotonTreeDetected print
  constructor <;> (simp only []; split_ifs <;> rfl)

/-- A run that only depends on the fields a photon loop reads can be restarted from any state
agreeing with `s` on them. -/
theorem recorded_of_eq {cfg : Parameters} {flat : Nat → ℚ} {rows : List PhotonRow}
    {s s' t : SimPhotonCounter} (h : Recorded cfg flat rows s' t)
    (e₁ : s'.fEventID = s.fEventID) (e₂ : s'.fOpChannel = s.fOpChannel)
    (e₃ : s'.fCountEventAll = s.fCountEventAll)
    (e₄ : s'.fCountEventDetected = s.fCountEventDetected)
    (e₅ : s'.fTheOpDetTree = s.fTheOpDetTree) (e₆ : s'.fTheEventTree = s.fTheEventTree)
    (e₇ : s'.library = s.library) (e₈ : s'.fired = s.fired)
    (e₉ : s'.fCountOpDetAll = s.fCountOpDetAll)
    (e₁₀ : s'.fCountOpDetDetected = s.fCountOpDetDetected)
    (e₁₁ : s'.fThePhotonTreeAll = s.fThePhotonTreeAll)
    (e₁₂ : s'.fThePhotonTreeDetected = s.fThePhotonTreeDetected) :
    Recorded cfg flat rows s t where
  fEventID := by rw [h.fEventID, e₁]
  fOpChannel := by rw [h.fOpChannel, e₂]
  fCountEventAll := by rw [h.fCountEventAll, e₃]
  fCountEventDetected := by rw [h.fCountEventDetected, e₄]
  fTheOpDetTree := by rw [h.fTheOpDetTree, e₅]
  fTheEventTree := by rw [h.fTheEventTree, e₆]
  library := by rw [h.library, e₇]
  fired := by rw [h.fired, e₈]
  fCountOpDetAll := by rw [h.fCountOpDetAll, e₉]
  fCountOpDetDetected := by rw [h.fCountOpDetDetected, e₁₀, e₈]
  fThePhotonTreeAll := by rw [h.fThePhotonTreeAll, e₁₁]
  fThePhotonTreeDetected := by rw [h.fThePhotonTreeDetected, e₁₂, e₈]

theorem photonBody_recorded (fp : Arithmetic) (cfg : Parameters) (flat : Nat → ℚ)
    (s : SimPhotonCounter)
    (Phot : OnePhoton) :
    Recorded cfg flat [⟨s.fEventID, wavelength fp Phot, s.fOpChannel, Phot.Time⟩] s
      (photonBody fp cfg flat s Phot) :=
  recorded_of_eq (liteBody_recorded cfg flat
    { s with fWavelength := wavelength fp Phot, fTime := Phot.Time })
    rfl rfl rfl rfl rfl rfl rfl rfl rfl rfl rfl rfl

theorem photonBodyVerbose_recorded (fp : Arithmetic) (cfg : Parameters) (flat : Nat → ℚ)
    (s : SimPhotonCounter)
    (Phot : OnePhoton) :
    Recorded cfg flat [⟨s.fEventID, wavelength fp Phot, s.fOpChannel, Phot.Time⟩] s
      (photonBodyVerbose fp cfg flat s Phot) :=
  recorded_of_eq (liteBodyVerbose_recorded cfg flat
    (print (.arrivalTime Phot.Time)
      { s with fWavelength := wavelength fp Phot, fTime := Phot.Time }))
    rfl rfl rfl rfl rfl rfl rfl rfl rfl rfl rfl rfl

theorem foldl_photonBody_recorded (fp : Arithmetic) (cfg : Parameters) (flat : Nat → ℚ)
    (TheHit : List OnePhoton) (s : SimPhotonCounter) :
    Recorded cfg flat (photonRows fp s.fEventID s.fOpChannel TheHit) s
      (TheHit.foldl (photonBody fp cfg flat) s) := by
  induction TheHit generalizing s with
  | nil => exact recorded_nil cfg flat s
  | cons Phot rest ih =>
    have h₁ := photonBody_recorded fp cfg flat s Phot
    have h₂ := ih (photonBody fp cfg flat s Phot)
    rw [h₁.fEventID, h₁.fOpChannel] at h₂
    exact recorded_append h₁ h₂

theorem foldl_photonBodyVerbose_recorded (fp : Arithmetic) (cfg : Parameters) (flat : Nat → ℚ)
    (TheHit : List OnePhoton) (s : SimPhotonCounter) :
    Recorded cfg flat (photonRows fp s.fEventID s.fOpChannel TheHit) s
      (TheHit.foldl (photonBodyVerbose fp cfg flat) s) := by
  induction TheHit generalizing s with
  | nil => exact recorded_nil cfg flat s
  | cons Phot rest ih =>
    have h₁ := photonBodyVerbose_recorded fp cfg flat s Phot
    have h₂ := ih (photonBodyVerbose fp cfg flat s Phot)
    rw [h₁.fEventID, h₁.fOpChannel] at h₂
    exact recorded_append h₁ h₂

theorem iterate_liteBody_recorded (cfg : Parameters) (flat : Nat → ℚ) (n : Nat)
    (s : SimPhotonCounter) :
    Recorded cfg flat (List.replicate n ⟨s.fEventID, s.fWavelength, s.fOpChannel, s.fTime⟩) s
      (Nat.iterate (liteBody cfg flat) n s) := by
  induction n generalizing s with
  | zero => exact recorded_nil cfg flat s
  | succ n ih =>
    have h₁ := liteBody_recorded cfg flat s
    have h₂ := ih (liteBody cfg flat s)
    rw [h₁.fEventID, h₁.fOpChannel, (liteBody_fWavelength cfg flat s).1,
      (liteBody_fWavelength cfg flat s).2] at h₂
    exact recorded_append h₁ h₂

theorem iterate_liteBodyVerbose_recorded (cfg : Parameters) (flat : Nat → ℚ) (n : Nat)
    (s : SimPhotonCounter) :
    Recorded cfg flat (List.replicate n ⟨s.fEventID, s.fWavelength, s.fOpChannel, s.fTime⟩) s
      (Nat.iterate (liteBodyVerbose cfg flat) n s) := by
  induction n generalizing s with
  | zero => exact recorded_nil cfg flat s
  | succ n ih =>
    have h₁ := liteBodyVerbose_recorded cfg flat s
    have h₂ := ih (liteBodyVerbose cfg flat s)
    rw [h₁.fEventID, h₁.fOpChannel, (liteBodyVerbose_fWavelength cfg flat s).1,
      (liteBodyVerbose_fWavelength cfg flat s).2] at h₂
    exact recorded_append h₁ h₂

theorem bucketBody_recorded (cfg : Parameters) (flat : Nat → ℚ) (s : SimPhotonCounter)
    (it : Int × Int) :
    Recorded cfg flat
      (List.replicate it.2.toNat ⟨s.fEventID, .finite 128, s.fOpChannel, toFloat_t (toInt (it.1 * 2))⟩) s
      (bucketBody cfg flat s it) :=
  recorded_of_eq (iterate_liteBody_recorded cfg flat it.2.toNat
    { s with fWavelength := .finite 128, fTime := toFloat_t (toInt (it.1 * 2)) })
    rfl rfl rfl rfl rfl rfl rfl rfl rfl rfl rfl rfl

theorem bucketBodyVerbose_recorded (cfg : Parameters) (flat : Nat → ℚ) (s : SimPhotonCounter)
    (it : Int × Int) :
    Recorded cfg flat
      (List.replicate it.2.toNat ⟨s.fEventID, .finite 128, s.fOpChannel, toFloat_t (toInt (it.1 * 2))⟩) s
      (bucketBodyVerbose cfg flat s it) :=
  recorded_of_eq (iterate_liteBodyVerbose_recorded cfg flat it.2.toNat
    (print (.arrivalTime (toFloat_t (toInt (it.1 * 2))))
      { s with fWavelength := .finite 128, fTime := toFloat_t (toInt (it.1 * 2)) }))
    rfl rfl rfl rfl rfl rfl rfl rfl rfl rfl rfl rfl

theorem foldl_bucketBody_recorded (cfg : Parameters) (flat : Nat → ℚ)
    (PhotonsMap : List (Int × Int)) (s : SimPhotonCounter) :
    Recorded cfg flat (liteRows s.fEventID s.fOpChannel PhotonsMap) s
      (PhotonsMap.foldl (bucketBody cfg flat) s) := by
  induction PhotonsMap generalizing s with
  | nil => exact recorded_nil cfg flat s
  | cons it rest ih =>
    have h₁ := bucketBody_recorded cfg flat s it
    have h₂ := ih (bucketBody cfg flat s it)
    rw [h₁.fEventID, h₁.fOpChannel] at h₂
    exact recorded_append h₁ h₂

theorem foldl_bucketBodyVerbose_recorded (cfg : Parameters) (flat : Nat → ℚ)
    (PhotonsMap : List (Int × Int)) (s : SimPhotonCounter) :
    Recorded cfg flat (liteRows s.fEventID s.fOpChannel PhotonsMap) s
      (PhotonsMap.foldl (bucketBodyVerbose cfg flat) s) := by
  induction PhotonsMap generalizing s with
  | nil => exact recorded_nil cfg flat s
  | cons it rest ih =>
    have h₁ := bucketBodyVerbose_recorded cfg flat s it
    have h₂ := ih (bucketBodyVerbose cfg flat s it)
    rw [h₁.fEventID, h₁.fOpChannel] at h₂
    exact recorded_append h₁ h₂

/-! ## The channel loops -/

theorem opDetBody_tallied (fp : Arithmetic) (cfg : Parameters) (flat : Nat → ℚ)
    (pvs : PhotonVisibilityService)
    (s : SimPhotonCounter) (itOpDet : Int × List OnePhoton) :
    Tallied cfg flat itOpDet.1 (photonRows fp s.fEventID itOpDet.1 itOpDet.2)
      (libraryCalls pvs [itOpDet]) s (opDetBody fp cfg flat pvs s itOpDet) := by
  have hR : Recorded cfg flat (photonRows fp s.fEventID itOpDet.1 itOpDet.2)
      { s with fCountOpDetAll := 0, fCountOpDetDetected := 0, fOpChannel := itOpDet.1 }
      (if cfg.fVerbosity > 3 then
        itOpDet.2.foldl (photonBodyVerbose fp cfg flat)
          { s with fCountOpDetAll := 0, fCountOpDetDetected := 0, fOpChannel := itOpDet.1 }
      else
        itOpDet.2.foldl (photonBody fp cfg flat)
          { s with fCountOpDetAll := 0, fCountOpDetDetected := 0, fOpChannel := itOpDet.1 }) := by
    split_ifs
    · exact foldl_photonBodyVerbose_recorded fp cfg flat itOpDet.2
        { s with fCountOpDetAll := 0, fCountOpDetDetected := 0, fOpChannel := itOpDet.1 }
    · exact foldl_photonBody_recorded fp cfg flat itOpDet.2
        { s with fCountOpDetAll := 0, fCountOpDetDetected := 0, fOpChannel := itOpDet.1 }
  unfold opDetBody
  simp only []
  generalize (if cfg.fVerbosity > 3 then
        itOpDet.2.foldl (photonBodyVerbose fp cfg flat)
          { s with fCountOpDetAll := 0, fCountOpDetDetected := 0, fOpChannel := itOpDet.1 }
      else
        itOpDet.2.foldl (photonBody fp cfg flat)
          { s with fCountOpDetAll := 0, fCountOpDetDetected := 0, fOpChannel := itOpDet.1 }) = t
    at hR ⊢
  have e₁ := hR.fEventID
  have e₂ := hR.fOpChannel
  have e₃ := hR.fCountEventAll
  have e₄ := hR.fCountEventDetected
  have e₅ := hR.fTheOpDetTree
  have e₆ := hR.fTheEventTree
  have e₇ := hR.library
  have e₈ := hR.fired
  have e₉ := hR.fCountOpDetAll
  have e₁₀ := hR.fCountOpDetDetected
  have e₁₁ := hR.fThePhotonTreeAll
  have e₁₂ := hR.fThePhotonTreeDetected
  simp only [zero_add] at e₁ e₂ e₃ e₄ e₅ e₆ e₇ e₈ e₉ e₁₀ e₁₁ e₁₂
  have hl : (photonRows fp s.fEventID itOpDet.1 itOpDet.2).length = itOpDet.2.length := by
    simp [photonRows]
  cases hB : pvs.IsBuildJob <;> cases hO : cfg.fMakeOpDetsTree <;>
    by_cases hV : cfg.fVerbosity > 2 <;>
    constructor <;>
    simp [fillOpDetTree, print, libraryCalls, hB, hO, hV, e₁, e₂, e₃, e₄, e₅, e₆, e₇, e₈, e₉,
      e₁₀, e₁₁, e₁₂, hl]

theorem liteOpDetBody_tallied (cfg : Parameters) (flat : Nat → ℚ) (s : SimPhotonCounter)
    (photon : SimPhotonsLite) :
    Tallied cfg flat photon.OpChannel
      (liteRows s.fEventID photon.OpChannel photon.DetectedPhotons) [] s
      (liteOpDetBody cfg flat s photon) := by
  have hR : Recorded cfg flat (liteRows s.fEventID photon.OpChannel photon.DetectedPhotons)
      { s with fOpChannel := photon.OpChannel, fCountOpDetAll := 0, fCountOpDetDetected := 0 }
      (if cfg.fVerbosity > 3 then
        photon.DetectedPhotons.foldl (bucketBodyVerbose cfg flat)
          { s with fOpChannel := photon.OpChannel, fCountOpDetAll := 0,
                   fCountOpDetDetected := 0 }
      else
        photon.DetectedPhotons.foldl (bucketBody cfg flat)
          { s with fOpChannel := photon.OpChannel, fCountOpDetAll := 0,
                   fCountOpDetDetected := 0 }) := by
    split_ifs
    · exact foldl_bucketBodyVerbose_recorded cfg flat photon.DetectedPhotons
        { s with fOpChannel := photon.OpChannel, fCountOpDetAll := 0, fCountOpDetDetected := 0 }
    · exact foldl_bucketBody_recorded cfg flat photon.DetectedPhotons
        { s with fOpChannel := photon.OpChannel, fCountOpDetAll := 0, fCountOpDetDetected := 0 }
  unfold liteOpDetBody
  simp only []
  generalize (if cfg.fVerbosity > 3 then
        photon.DetectedPhotons.foldl (bucketBodyVerbose cfg flat)
          { s with fOpChannel := photon.OpChannel, fCountOpDetAll := 0,
                   fCountOpDetDetected := 0 }
      else
        photon.DetectedPhotons.foldl (bucketBody cfg flat)
          { s with fOpChannel := photon.OpChannel, fCountOpDetAll := 0,
                   fCountOpDetDetected := 0 }) = t
    at hR ⊢
  have e₁ := hR.fEventID
  have e₂ := hR.fOpChannel
  have e₃ := hR.fCountEventAll
  have e₄ := hR.fCountEventDetected
  have e₅ := hR.fTheOpDetTree
  have e₆ := hR.fTheEventTree
  have e₇ := hR.library
  have e₈ := hR.fired
  have e₉ := hR.fCountOpDetAll
  have e₁₀ := hR.fCountOpDetDetected
  have e₁₁ := hR.fThePhotonTreeAll
  have e₁₂ := hR.fThePhotonTreeDetected
  simp only [zero_add] at e₁ e₂ e₃ e₄ e₅ e₆ e₇ e₈ e₉ e₁₀ e₁₁ e₁₂
  cases hO : cfg.fMakeOpDetsTree <;> by_cases hV : cfg.fVerbosity > 2 <;>
    constructor <;>
    simp [fillOpDetTree, print, hO, hV, e₁, e₂, e₃, e₄, e₅, e₆, e₇, e₈, e₉, e₁₀, e₁₁, e₁₂]

theorem libraryCalls_cons (pvs : PhotonVisibilityService) (c : Int × List OnePhoton)
    (cs : List (Int × List OnePhoton)) :
    libraryCalls pvs (c :: cs) = libraryCalls pvs [c] ++ libraryCalls pvs cs := by
  cases h : pvs.IsBuildJob <;> simp [libraryCalls, h]

/-! ## The event -/

theorem processed_nil (cfg : Parameters) (flat : Nat → ℚ) (s : SimPhotonCounter) :
    Processed cfg flat [] [] s s := by
  constructor <;> simp [talliesFrom, detectedFrom]

theorem processed_cons {cfg : Parameters} {flat : Nat → ℚ} {ch : Int} {rows : List PhotonRow}
    {chans : List (Int × List PhotonRow)} {l₁ l₂ : List LibraryEntry}
    {s t u : SimPhotonCounter} (h₁ : Tallied cfg flat ch rows l₁ s t)
    (h₂ : Processed cfg flat chans l₂ t u) :
    Processed cfg flat ((ch, rows) :: chans) (l₁ ++ l₂) s u where
  fEventID := by rw [h₂.fEventID, h₁.fEventID]
  fTheEventTree := by rw [h₂.fTheEventTree, h₁.fTheEventTree]
  fired := by
    rw [h₂.fired, h₁.fired]
    simp only [List.flatMap_cons, List.length_append]; omega
  fCountEventAll := by
    rw [h₂.fCountEventAll, h₁.fCountEventAll, h₁.fEventID, h₁.fired]
    simp only [talliesFrom, List.map_cons, List.sum_cons]; ring
  fCountEventDetected := by
    rw [h₂.fCountEventDetected, h₁.fCountEventDetected, h₁.fEventID, h₁.fired]
    simp only [talliesFrom, List.map_cons, List.sum_cons]; ring
  fThePhotonTreeAll := by
    rw [h₂.fThePhotonTreeAll, h₁.fThePhotonTreeAll]
    cases cfg.fMakeAllPhotonsTree <;> simp
  fThePhotonTreeDetected := by
    rw [h₂.fThePhotonTreeDetected, h₁.fThePhotonTreeDetected, h₁.fired]
    cases cfg.fMakeDetectedPhotonsTree <;> simp [detectedFrom_append]
  fTheOpDetTree := by
    rw [h₂.fTheOpDetTree, h₁.fTheOpDetTree, h₁.fEventID, h₁.fired]
    cases cfg.fMakeOpDetsTree <;> simp [talliesFrom]
  library := by rw [h₂.library, h₁.library, List.append_assoc]

theorem foldl_opDetBody_processed (fp : Arithmetic) (cfg : Parameters) (flat : Nat → ℚ)
    (pvs : PhotonVisibilityService) (chans : List (Int × List OnePhoton))
    (s : SimPhotonCounter) :
    Processed cfg flat (chans.map fun c => (c.1, photonRows fp s.fEventID c.1 c.2))
      (libraryCalls pvs chans) s (chans.foldl (opDetBody fp cfg flat pvs) s) := by
  induction chans generalizing s with
  | nil =>
    have := processed_nil cfg flat s
    simpa [libraryCalls] using this
  | cons c cs ih =>
    have h₁ := opDetBody_tallied fp cfg flat pvs s c
    have h₂ := ih (opDetBody fp cfg flat pvs s c)
    rw [h₁.fEventID] at h₂
    rw [libraryCalls_cons]
    exact processed_cons h₁ h₂

theorem foldl_liteOpDetBody_processed (cfg : Parameters) (flat : Nat → ℚ)
    (chans : List SimPhotonsLite) (s : SimPhotonCounter) :
    Processed cfg flat
      (chans.map fun c => (c.OpChannel, liteRows s.fEventID c.OpChannel c.DetectedPhotons))
      [] s (chans.foldl (liteOpDetBody cfg flat) s) := by
  induction chans generalizing s with
  | nil => exact processed_nil cfg flat s
  | cons c cs ih =>
    have h₁ := liteOpDetBody_tallied cfg flat s c
    have h₂ := ih (liteOpDetBody cfg flat s c)
    rw [h₁.fEventID] at h₂
    exact processed_cons h₁ h₂

theorem analyzed_of_processed {fp : Arithmetic} {cfg : Parameters} {flat : Nat → ℚ}
    {pvs : PhotonVisibilityService} {fUseLitePhotons : Bool} {evt : Event}
    {lib : List LibraryEntry} {s s₂ t u : SimPhotonCounter}
    (h₂ : s₂ = { s with fEventID := evt.event, fCountEventAll := 0, fCountEventDetected := 0,
                        cout := s₂.cout })
    (hP : Processed cfg flat (opDetPhotons fp fUseLitePhotons evt) lib s₂ t)
    (hlib : lib = if fUseLitePhotons then [] else libraryCalls pvs evt.TheHitCollection)
    (hu : u = { (if cfg.fMakeOpDetEventsTree then fillEventTree t else t) with
                  cout := u.cout }) :
    Analyzed fp cfg flat pvs fUseLitePhotons evt s u := by
  have a₁ : s₂.fEventID = evt.event := by rw [h₂]
  have a₂ : s₂.fCountEventAll = 0 := by rw [h₂]
  have a₃ : s₂.fCountEventDetected = 0 := by rw [h₂]
  have a₄ : s₂.fired = s.fired := by rw [h₂]
  have a₅ : s₂.fThePhotonTreeAll = s.fThePhotonTreeAll := by rw [h₂]
  have a₆ : s₂.fThePhotonTreeDetected = s.fThePhotonTreeDetected := by rw [h₂]
  have a₇ : s₂.fTheOpDetTree = s.fTheOpDetTree := by rw [h₂]
  have a₈ : s₂.fTheEventTree = s.fTheEventTree := by rw [h₂]
  have a₉ : s₂.library = s.library := by rw [h₂]
  have b₁ : u.fEventID = t.fEventID := by
    rw [hu]; cases cfg.fMakeOpDetEventsTree <;> rfl
  have b₂ : u.fCountEventAll = t.fCountEventAll := by
    rw [hu]; cases cfg.fMakeOpDetEventsTree <;> rfl
  have b₃ : u.fCountEventDetected = t.fCountEventDetected := by
    rw [hu]; cases cfg.fMakeOpDetEventsTree <;> rfl
  have b₄ : u.fired = t.fired := by
    rw [hu]; cases cfg.fMakeOpDetEventsTree <;> rfl
  have b₅ : u.fThePhotonTreeAll = t.fThePhotonTreeAll := by
    rw [hu]; cases cfg.fMakeOpDetEventsTree <;> rfl
  have b₆ : u.fThePhotonTreeDetected = t.fThePhotonTreeDetected := by
    rw [hu]; cases cfg.fMakeOpDetEventsTree <;> rfl
  have b₇ : u.fTheOpDetTree = t.fTheOpDetTree := by
    rw [hu]; cases cfg.fMakeOpDetEventsTree <;> rfl
  have b₈ : u.fTheEventTree = t.fTheEventTree ++
      (if cfg.fMakeOpDetEventsTree then [⟨t.fEventID, t.fCountEventAll, t.fCountEventDetected⟩]
      else []) := by
    rw [hu]; cases cfg.fMakeOpDetEventsTree <;> simp [fillEventTree]
  have b₉ : u.library = t.library := by
    rw [hu]; cases cfg.fMakeOpDetEventsTree <;> rfl
  exact
    { fEventID := by rw [b₁, hP.fEventID, a₁]
      fired := by rw [b₄, hP.fired, a₄]; rfl
      fCountEventAll := by rw [b₂, hP.fCountEventAll, a₁, a₂, a₄, zero_add]
      fCountEventDetected := by rw [b₃, hP.fCountEventDetected, a₁, a₃, a₄, zero_add]
      fThePhotonTreeAll := by rw [b₅, hP.fThePhotonTreeAll, a₅]; rfl
      fThePhotonTreeDetected := by rw [b₆, hP.fThePhotonTreeDetected, a₆, a₄]; rfl
      fTheOpDetTree := by rw [b₇, hP.fTheOpDetTree, a₇, a₁, a₄]
      fTheEventTree := by rw [b₈, hP.fTheEventTree, a₈, b₂, b₃, hP.fEventID, a₁]
      library := by rw [b₉, hP.library, a₉, hlib] }

/-- Itemized `analyze` is the channel loop run from a state `s₂` that is `s` with the event
number set and the event counters zeroed, followed by the filling of the event tree; the
equalities leave `std::cout` aside. -/
theorem analyze_itemized_loop (fp : Arithmetic) (cfg : Parameters) (flat : Nat → ℚ)
    (pvs : PhotonVisibilityService) (evt : Event) (s : SimPhotonCounter) :
    ∃ s₂ : SimPhotonCounter,
      s₂ = { s with fEventID := evt.event, fCountEventAll := 0, fCountEventDetected := 0,
                    cout := s₂.cout } ∧
      analyze fp cfg flat pvs false evt s =
        { (if cfg.fMakeOpDetEventsTree then
            fillEventTree (evt.TheHitCollection.foldl (opDetBody fp cfg flat pvs) s₂)
          else evt.TheHitCollection.foldl (opDetBody fp cfg flat pvs) s₂) with
          cout := (analyze fp cfg flat pvs false evt s).cout } := by
  obtain ⟨ev, hits, lites⟩ := evt
  refine ⟨if cfg.fVerbosity > 0 then
        print (.found hits.length)
          { s with fEventID := ev, fCountEventAll := 0, fCountEventDetected := 0 }
      else { s with fEventID := ev, fCountEventAll := 0, fCountEventDetected := 0 },
    by split_ifs <;> rfl, ?_⟩
  unfold analyze
  cases hits with
  | nil =>
    by_cases hV : cfg.fVerbosity > 0 <;> cases hE : cfg.fMakeOpDetEventsTree <;>
      simp [hV, hE, fillEventTree, print]
  | cons c cs =>
    by_cases hV : cfg.fVerbosity > 0 <;> by_cases hW : cfg.fVerbosity > 1 <;>
      cases hE : cfg.fMakeOpDetEventsTree <;>
      simp [hV, hW, hE, fillEventTree, print]

/-- Bucketed `analyze` is the channel loop run from a state `s₂` that is `s` with the event
number set and the event counters zeroed, followed by the filling of the event tree; the
equalities leave `std::cout` aside. -/
theorem analyze_lite_loop (fp : Arithmetic) (cfg : Parameters) (flat : Nat → ℚ)
    (pvs : PhotonVisibilityService) (evt : Event) (s : SimPhotonCounter) :
    ∃ s₂ : SimPhotonCounter,
      s₂ = { s with fEventID := evt.event, fCountEventAll := 0, fCountEventDetected := 0,
                    cout := s₂.cout } ∧
      analyze fp cfg flat pvs true evt s =
        { (if cfg.fMakeOpDetEventsTree then
            fillEventTree (evt.photonHandle.foldl (liteOpDetBody cfg flat) s₂)
          else evt.photonHandle.foldl (liteOpDetBody cfg flat) s₂) with
          cout := (analyze fp cfg flat pvs true evt s).cout } := by
  obtain ⟨ev, hits, lites⟩ := evt
  refine ⟨if cfg.fVerbosity > 0 then
        print (.found lites.length)
          { s with fEventID := ev, fCountEventAll := 0, fCountEventDetected := 0 }
      else { s with fEventID := ev, fCountEventAll := 0, fCountEventDetected := 0 },
    by split_ifs <;> rfl, ?_⟩
  unfold analyze
  cases lites with
  | nil =>
    by_cases hV : cfg.fVerbosity > 0 <;> cases hE : cfg.fMakeOpDetEventsTree <;>
      simp [hV, hE, fillEventTree, print]
  | cons c cs =>
    by_cases hV : cfg.fVerbosity > 0 <;> by_cases hW : cfg.fVerbosity > 1 <;>
      cases hE : cfg.fMakeOpDetEventsTree <;>
      simp [hV, hW, hE, fillEventTree, print]

/-- Closed form of everything `analyze` leaves behind, except `std::cout` and the per-channel
members. -/
theorem analyze_analyzed (fp : Arithmetic) (cfg : Parameters) (flat : Nat → ℚ)
    (pvs : PhotonVisibilityService)
    (fUseLitePhotons : Bool) (evt : Event) (s : SimPhotonCounter) :
    Analyzed fp cfg flat pvs fUseLitePhotons evt s (analyze fp cfg flat pvs fUseLitePhotons evt s) := by
  cases fUseLitePhotons
  · obtain ⟨s₂, h₂, hu⟩ := analyze_itemized_loop fp cfg flat pvs evt s
    have hP := foldl_opDetBody_processed fp cfg flat pvs evt.TheHitCollection s₂
    have a₁ : s₂.fEventID = evt.event := by rw [h₂]
    rw [a₁] at hP
    exact analyzed_of_processed h₂ hP rfl hu
  · obtain ⟨s₂, h₂, hu⟩ := analyze_lite_loop fp cfg flat pvs evt s
    have hP := foldl_liteOpDetBody_processed cfg flat evt.photonHandle s₂
    have a₁ : s₂.fEventID = evt.event := by rw [h₂]
    rw [a₁] at hP
    exact analyzed_of_processed h₂ hP rfl hu

/-! ## The reference functions in terms of list operations -/

theorem detectedFrom_eq_filter (cfg : Parameters) (flat : Nat → ℚ) (k : Nat)
    (rows : List PhotonRow) :
    detectedFrom cfg flat k rows =
      ((List.zip ((List.range rows.length).map fun i => flat (k + i)) rows).filter
        fun x => decide (accepts cfg x.1 x.2.Wavelength)).map Prod.snd := by
  induction rows generalizing k with
  | nil => simp [detectedFrom]
  | cons r rs ih =>
    have e : (fun i => flat (k + 1 + i)) = fun i => flat (k + (i + 1)) := by
      funext i; congr 1; omega
    by_cases h : accepts cfg (flat k) r.Wavelength <;>
      simp [detectedFrom, h, ih, List.range_succ_eq_map, List.filter_cons, e,
        Function.comp_def]

theorem detectedFrom_photonRows_length (fp : Arithmetic) (cfg : Parameters)
    (flat : Nat → ℚ) (k : Nat) (ev ch : Int) (TheHit : List OnePhoton) :
    (detectedFrom cfg flat k (photonRows fp ev ch TheHit)).length =
      List.countP
        (fun x : ℚ × OnePhoton =>
          decide (x.1 ≤ cfg.fQE ∧ wavelength fp x.2 > .finite cfg.fWavelengthCutLow ∧
            wavelength fp x.2 < .finite cfg.fWavelengthCutHigh))
        (List.zip ((List.range TheHit.length).map fun i => flat (k + i)) TheHit) := by
  induction TheHit generalizing k with
  | nil => simp [detectedFrom, photonRows]
  | cons p ps ih =>
    have e : (fun i => flat (k + 1 + i)) = fun i => flat (k + (i + 1)) := by
      funext i; congr 1; omega
    have ih' := ih (k + 1)
    rw [e] at ih'
    unfold photonRows at ih' ⊢
    by_cases h : accepts cfg (flat k) (wavelength fp p)
    · have h' := h
      unfold accepts at h'
      simp [detectedFrom, h, ih', List.range_succ_eq_map, List.countP_cons, h',
        Function.comp_def]
    · have h' := h
      unfold accepts at h'
      simp [detectedFrom, h, ih', List.range_succ_eq_map, List.countP_cons, h',
        Function.comp_def]

theorem photonRows_flatMap_length (fp : Arithmetic) (ev : Int)
    (chans : List (Int × List OnePhoton)) :
    ((chans.map fun c => (c.1, photonRows fp ev c.1 c.2)).flatMap fun c => c.2).length =
      (chans.map fun c => c.2.length).sum := by
  induction chans with
  | nil => rfl
  | cons c cs ih =>
    simp only [List.map_cons, List.flatMap_cons, List.length_append, List.sum_cons, ih]
    simp [photonRows]

theorem talliesFrom_le (cfg : Parameters) (flat : Nat → ℚ) (ev : Int) (k : Nat)
    (chans : List (Int × List PhotonRow)) :
    ∀ r ∈ talliesFrom cfg flat ev k chans, r.CountDetected ≤ r.CountAll := by
  induction chans generalizing k with
  | nil => simp [talliesFrom]
  | cons c cs ih =>
    intro r hr
    simp only [talliesFrom, List.mem_cons] at hr
    rcases hr with rfl | hr
    · exact Int.ofNat_le.mpr (detectedFrom_length_le cfg flat k c.2)
    · exact ih _ r hr

theorem talliesFrom_sum_le (cfg : Parameters) (flat : Nat → ℚ) (ev : Int) (k : Nat)
    (chans : List (Int × List PhotonRow)) :
    ((talliesFrom cfg flat ev k chans).map fun r => r.CountDetected).sum ≤
      ((talliesFrom cfg flat ev k chans).map fun r => r.CountAll).sum := by
  induction chans generalizing k with
  | nil => simp [talliesFrom]
  | cons c cs ih =>
    have h₁ : ((detectedFrom cfg flat k c.2).length : Int) ≤ c.2.length :=
      Int.ofNat_le.mpr (detectedFrom_length_le cfg flat k c.2)
    have h₂ := ih (k + c.2.length)
    simp only [talliesFrom, List.map_cons, List.sum_cons]
    omega

theorem talliesFrom_countAll (cfg : Parameters) (flat : Nat → ℚ) (ev : Int) (k : Nat)
    (chans : List (Int × List PhotonRow)) :
    (talliesFrom cfg flat ev k chans).map (fun r => (r.EventID, r.OpChannel, r.CountAll)) =
      chans.map fun c => (ev, c.1, (c.2.length : Int)) := by
  induction chans generalizing k with
  | nil => simp [talliesFrom]
  | cons c cs ih => simp [talliesFrom, ih]

theorem talliesFrom_sum_countAll (cfg : Parameters) (flat : Nat → ℚ) (ev : Int) (k : Nat)
    (chans : List (Int × List PhotonRow)) :
    ((talliesFrom cfg flat ev k chans).map fun r => r.CountAll).sum =
      ((chans.flatMap fun c => c.2).length : Int) := by
  induction chans generalizing k with
  | nil => simp [talliesFrom]
  | cons c cs ih =>
    simp only [talliesFrom, List.map_cons, List.sum_cons, ih, List.flatMap_cons,
      List.length_append]
    push_cast; ring

theorem detectedFrom_eq_nil (cfg : Parameters) (flat : Nat → ℚ) (hQE : cfg.fQE = 0)
    (hpos : ∀ i, 0 < flat i) (k : Nat) (rows : List PhotonRow) :
    detectedFrom cfg flat k rows = [] := by
  induction rows generalizing k with
  | nil => rfl
  | cons r rs ih =>
    have h : ¬ accepts cfg (flat k) r.Wavelength := by
      intro h
      have h₁ := h.1
      rw [hQE] at h₁
      exact absurd (hpos k) (not_lt.mpr h₁)
    simp [detectedFrom, h, ih]

theorem talliesFrom_countDetected_zero (cfg : Parameters) (flat : Nat → ℚ)
    (hQE : cfg.fQE = 0) (hpos : ∀ i, 0 < flat i) (ev : Int) (k : Nat)
    (chans : List (Int × List PhotonRow)) :
    ∀ r ∈ talliesFrom cfg flat ev k chans, r.CountDetected = 0 := by
  induction chans generalizing k with
  | nil => simp [talliesFrom]
  | cons c cs ih =>
    intro r hr
    simp only [talliesFrom, List.mem_cons] at hr
    rcases hr with rfl | hr
    · simp [detectedFrom_eq_nil cfg flat hQE hpos]
    · exact ih _ r hr

theorem talliesFrom_sum_countDetected_zero (cfg : Parameters) (flat : Nat → ℚ)
    (hQE : cfg.fQE = 0) (hpos : ∀ i, 0 < flat i) (ev : Int) (k : Nat)
    (chans : List (Int × List PhotonRow)) :
    ((talliesFrom cfg flat ev k chans).map fun r => r.CountDetected).sum = 0 := by
  induction chans generalizing k with
  | nil => simp [talliesFrom]
  | cons c cs ih =>
    simp [talliesFrom, ih, detectedFrom_eq_nil cfg flat hQE hpos]

theorem liteRows_length (ev ch : Int) (PhotonsMap : List (Int × Int)) :
    (liteRows ev ch PhotonsMap).length = (PhotonsMap.map fun it => it.2.toNat).sum := by
  induction PhotonsMap with
  | nil => rfl
  | cons it rest ih =>
    unfold liteRows at ih ⊢
    simp only [List.flatMap_cons, List.length_append, List.length_replicate, List.map_cons,
      List.sum_cons, ih]

theorem allPhotons_length (fp : Arithmetic) (fUseLitePhotons : Bool) (evt : Event) :
    (allPhotons fp fUseLitePhotons evt).length =
      if fUseLitePhotons then
        (evt.photonHandle.map fun photon =>
          (photon.DetectedPhotons.map fun it => it.2.toNat).sum).sum
      else (evt.TheHitCollection.map fun itOpDet => itOpDet.2.length).sum := by
  cases fUseLitePhotons
  · simp only [allPhotons, opDetPhotons, Bool.false_eq_true, if_false]
    exact photonRows_flatMap_length fp evt.event evt.TheHitCollection
  · simp only [allPhotons, opDetPhotons, if_true]
    induction evt.photonHandle with
    | nil => rfl
    | cons c cs ih =>
      simp only [List.map_cons, List.flatMap_cons, List.length_append, List.sum_cons, ih,
        liteRows_length]

/-- An `int` expression whose exact value lies in the range of `int` has that value. -/
theorem toInt_exact (n : Int) (h : n.natAbs < 2 ^ 31) : toInt n = n := by
  unfold toInt
  omega

/-- An `int` of absolute value at most `2^24` is converted to `Float_t` without rounding. -/
theorem toFloat_t_exact (n : Int) (h : n.natAbs ≤ 2 ^ 24) : toFloat_t n = n := by
  rcases Nat.lt_or_ge n.natAbs (2 ^ 24) with hlt | hge
  · have hd : dropBits n.natAbs n.natAbs = 0 := by
      cases hn : n.natAbs with
      | zero => rfl
      | succ k =>
        rw [hn] at hlt
        simp only [dropBits]
        rw [if_pos hlt]
    have hq : ((n.natAbs : Nat) : ℚ) = |(n : ℚ)| := by rw [Nat.cast_natAbs, Int.cast_abs]
    have hc : ¬ (0 > 1 ∨ (0 = 1 ∧ n.natAbs % 2 = 1)) := by omega
    unfold toFloat_t
    simp only [hd, pow_zero, Nat.div_one, Nat.mod_one, mul_zero, mul_one]
    rw [if_neg hc, hq]
    by_cases h0 : n < 0
    · have h1 : (n : ℚ) < 0 := by exact_mod_cast h0
      rw [if_pos h0, abs_of_neg h1]
      ring
    · have h1 : (0 : ℚ) ≤ n := by exact_mod_cast not_lt.mp h0
      rw [if_neg h0, abs_of_nonneg h1]
  · have he : n.natAbs = 2 ^ 24 := le_antisymm h hge
    rcases Int.natAbs_eq n with hn | hn
    · rw [hn, he]
      decide
    · rw [hn, he]
      decide

theorem wavelength_expand (t : ℚ) :
    wavelength exactArithmetic ⟨(2.0 * 3.142) * 0.000197 / 128, t⟩ = .finite 128 := by
  unfold wavelength exactArithmetic
  norm_num

theorem photonRows_expandWith (fp : Arithmetic) (E : ℚ)
    (hE : fp.divide ((2.0 * 3.142) * 0.000197) E = .finite 128) (ev : Int)
    (photon : SimPhotonsLite) :
    photonRows fp ev (expandWith E photon).1 (expandWith E photon).2 =
      liteRows ev photon.OpChannel photon.DetectedPhotons := by
  unfold photonRows liteRows expandWith wavelength
  simp only [List.map_flatMap, List.map_replicate, hE]

theorem photonRows_expand (ev : Int) (photon : SimPhotonsLite) :
    photonRows exactArithmetic ev (expand photon).1 (expand photon).2 =
      liteRows ev photon.OpChannel photon.DetectedPhotons :=
  photonRows_expandWith exactArithmetic _ (wavelength_expand 0) ev photon

theorem opDetPhotons_expandWith (fp fp₀ : Arithmetic) (E : ℚ)
    (hE : fp₀.divide ((2.0 * 3.142) * 0.000197) E = .finite 128) (ev : Int)
    (hits : List (Int × List OnePhoton)) (lites : List SimPhotonsLite) :
    opDetPhotons fp₀ false ⟨ev, lites.map (expandWith E), lites⟩ =
      opDetPhotons fp true ⟨ev, hits, lites⟩ := by
  simp only [opDetPhotons, Bool.false_eq_true, if_false, if_true, List.map_map]
  apply List.map_congr_left
  intro photon _
  simp only [Function.comp_apply, photonRows_expandWith fp₀ E hE]
  rfl

theorem opDetPhotons_expand (fp : Arithmetic) (ev : Int) (hits : List (Int × List OnePhoton))
    (lites : List SimPhotonsLite) :
    opDetPhotons exactArithmetic false ⟨ev, lites.map expand, lites⟩ =
      opDetPhotons fp true ⟨ev, hits, lites⟩ :=
  opDetPhotons_expandWith fp exactArithmetic _ (wavelength_expand 0) ev hits lites

/-- The expansion of a record whose buckets have an absolute value of at most `2^23` has the
photon times `2 * bucket`. -/
theorem expand_exact (photon : SimPhotonsLite)
    (hb : ∀ it ∈ photon.DetectedPhotons, it.1.natAbs ≤ 2 ^ 23) :
    expand photon =
      (photon.OpChannel,
        photon.DetectedPhotons.flatMap fun it =>
          List.replicate it.2.toNat
            ⟨(2.0 * 3.142) * 0.000197 / 128, ((it.1 * 2 : Int) : ℚ)⟩) := by
  unfold expand expandWith
  congr 1
  apply List.flatMap_congr
  intro it hit
  have e : (it.1 * 2).natAbs = it.1.natAbs * 2 := by
    rw [Int.natAbs_mul]
    rfl
  have h := hb it hit
  rw [toInt_exact _ (by rw [e]; omega), toFloat_t_exact _ (by rw [e]; omega)]

theorem liteRows_mem (ev ch : Int) (PhotonsMap : List (Int × Int)) :
    ∀ r ∈ liteRows ev ch PhotonsMap,
      r.EventID = ev ∧ r.Wavelength = .finite 128 ∧ r.OpChannel = ch ∧
        ∃ it ∈ PhotonsMap, r.Time = toFloat_t (toInt (it.1 * 2)) := by
  intro r hr
  simp only [liteRows, List.mem_flatMap] at hr
  obtain ⟨it, hit, hr⟩ := hr
  have := List.eq_of_mem_replicate hr
  subst this
  exact ⟨rfl, rfl, rfl, it, hit, rfl⟩

theorem allPhotons_lite_mem (fp : Arithmetic) (evt : Event) :
    ∀ r ∈ allPhotons fp true evt,
      r.Wavelength = .finite 128 ∧
        ∃ photon ∈ evt.photonHandle, ∃ it ∈ photon.DetectedPhotons,
          r.OpChannel = photon.OpChannel ∧ r.Time = toFloat_t (toInt (it.1 * 2)) := by
  intro r hr
  simp only [allPhotons, opDetPhotons, if_true, List.mem_flatMap, List.mem_map] at hr
  obtain ⟨c, ⟨photon, hp, rfl⟩, hr⟩ := hr
  obtain ⟨-, hw, hc, it, hit, ht⟩ := liteRows_mem _ _ _ r hr
  exact ⟨hw, photon, hp, it, hit, hc, ht⟩

theorem detectedFrom_congr (cfg cfg' : Parameters) (flat : Nat → ℚ)
    (hQ : cfg'.fQE = cfg.fQE) (hL : cfg'.fWavelengthCutLow = cfg.fWavelengthCutLow)
    (hH : cfg'.fWavelengthCutHigh = cfg.fWavelengthCutHigh) (k : Nat)
    (rows : List PhotonRow) : detectedFrom cfg' flat k rows = detectedFrom cfg flat k rows := by
  induction rows generalizing k with
  | nil => rfl
  | cons r rs ih =>
    have e : accepts cfg' (flat k) r.Wavelength ↔ accepts cfg (flat k) r.Wavelength := by
      unfold accepts
      rw [hQ, hL, hH]
    by_cases h : accepts cfg (flat k) r.Wavelength
    · simp [detectedFrom, h, e.mpr h, ih]
    · simp [detectedFrom, h, mt e.mp h, ih]

theorem talliesFrom_congr (cfg cfg' : Parameters) (flat : Nat → ℚ)
    (hQ : cfg'.fQE = cfg.fQE) (hL : cfg'.fWavelengthCutLow = cfg.fWavelengthCutLow)
    (hH : cfg'.fWavelengthCutHigh = cfg.fWavelengthCutHigh) (ev : Int) (k : Nat)
    (chans : List (Int × List PhotonRow)) :
    talliesFrom cfg' flat ev k chans = talliesFrom cfg flat ev k chans := by
  induction chans generalizing k with
  | nil => rfl
  | cons c cs ih => simp [talliesFrom, ih, detectedFrom_congr cfg cfg' flat hQ hL hH]

/-! ## The wavelength of an itemized photon -/

theorem photonBody_fWavelength (fp : Arithmetic) (cfg : Parameters) (flat : Nat → ℚ)
    (s : SimPhotonCounter)
    (Phot : OnePhoton) :
    (photonBody fp cfg flat s Phot).fWavelength = wavelength fp Phot ∧
      (photonBodyVerbose fp cfg flat s Phot).fWavelength = wavelength fp Phot :=
  ⟨(liteBody_fWavelength cfg flat
      { s with fWavelength := wavelength fp Phot, fTime := Phot.Time }).1,
    (liteBodyVerbose_fWavelength cfg flat
      (print (.arrivalTime Phot.Time)
        { s with fWavelength := wavelength fp Phot, fTime := Phot.Time })).1⟩

theorem wavelength_eq (Phot : OnePhoton) (hE : Phot.Energy ≠ 0) :
    wavelength exactArithmetic Phot =
      .finite (2 * (3142 / 1000) * (197 / 1000000) / Phot.Energy) := by
  unfold wavelength exactArithmetic
  simp only [hE, if_false]
  norm_num

/-- The exponent of a positive number that lies between two consecutive powers of 2. -/
theorem log_eq_of_bounds (x : ℚ) (e : ℤ) (h₁ : (2 : ℚ) ^ e ≤ x) (h₂ : x < 2 ^ (e + 1)) :
    Int.log 2 x = e := by
  have hx : 0 < x := lt_of_lt_of_le (by positivity) h₁
  apply le_antisymm
  · have h := (Int.lt_zpow_iff_log_lt (b := 2) (by norm_num) hx).mp (by exact_mod_cast h₂)
    omega
  · exact (Int.zpow_le_iff_le_log (b := 2) (by norm_num) hx).mp (by exact_mod_cast h₁)

/-- A positive `x` between `2 ^ (e + p - 1)` and `2 ^ (e + p)` that is closer than half a
unit of the last place to `m * 2 ^ e` rounds to `m * 2 ^ e`. -/
theorem nearest_eq (p : Nat) (emin : Int) (x : ℚ) (e m : Int) (hx : 0 < x)
    (hlo : (2 : ℚ) ^ (e + ((p : Int) - 1)) ≤ x) (hhi : x < 2 ^ (e + ((p : Int) - 1) + 1))
    (he : emin ≤ e) (hm : |x / 2 ^ e - m| < 1 / 2) : nearest p emin x = m * 2 ^ e := by
  have hl : Int.log 2 x = e + ((p : Int) - 1) := log_eq_of_bounds x _ hlo hhi
  have hmax : max (Int.log 2 x - ((p : Int) - 1)) emin = e := by
    rw [hl]
    simp [he]
  unfold nearest
  rw [if_neg (ne_of_gt hx)]
  simp only [abs_of_pos hx, if_pos hx, hmax]
  rw [abs_lt] at hm
  congr 2
  by_cases hc : (m : ℚ) ≤ x / 2 ^ e
  · have hf : ⌊x / 2 ^ e⌋ = m := by
      rw [Int.floor_eq_iff]
      constructor
      · exact hc
      · linarith [hm.2]
    rw [hf, if_neg]
    rintro (h | ⟨h, -⟩) <;> linarith [hm.2]
  · have hf : ⌊x / 2 ^ e⌋ = m - 1 := by
      rw [Int.floor_eq_iff]
      push_cast
      constructor
      · linarith [hm.1]
      · linarith [not_le.mp hc]
    rw [hf, if_pos]
    · ring
    · left
      push_cast
      linarith [hm.1]

/-- Rounding of a positive `x`, from the significand `m` and the exponent `e` of the last
place of the result. -/
theorem roundTo_eq (p : Nat) (emin emax : Int) (x : ℚ) (e m : Int) (hx : 0 < x)
    (hlo : (2 : ℚ) ^ (e + ((p : Int) - 1)) ≤ x) (hhi : x < 2 ^ (e + ((p : Int) - 1) + 1))
    (he : emin ≤ e) (hm : |x / 2 ^ e - m| < 1 / 2) (hpos : 0 < m)
    (hr : (m : ℚ) * 2 ^ e < 2 ^ emax) : roundTo p emin emax x = .finite (m * 2 ^ e) := by
  have h := nearest_eq p emin x e m hx hlo hhi he hm
  have h0 : (0 : ℚ) < m * 2 ^ e := by
    have : (0 : ℚ) < m := by exact_mod_cast hpos
    positivity
  unfold roundTo
  simp only [h]
  rw [if_neg]
  rw [abs_of_pos h0]
  exact not_le.mpr hr

/-- The quotient of IEEE arithmetic for a nonzero divisor, from the two `double` values. -/
theorem ieee_divide_eq (a b n d : ℚ) (hn : toDouble a = .finite n) (hb : b ≠ 0)
    (hd : toDouble (n / b) = .finite d) : ieee.divide a b = toFloat d := by
  simp only [ieee, hn, hd, if_neg hb]

/-- The quotient of IEEE arithmetic for a positive dividend and the divisor 0. -/
theorem ieee_divide_eq_posInf (a n : ℚ) (hn : toDouble a = .finite n) (h : 0 < n) :
    ieee.divide a 0 = .posInf := by
  simp only [ieee, hn, if_true, if_pos h]

/-- The `double` constant of lines 262 and 286, `0x1.448548b254034p-10`. -/
theorem toDouble_constant :
    toDouble ((2.0 * 3.142) * 0.000197) = .finite (1427256870785037 / 1152921504606846976) := by
  unfold toDouble
  rw [roundTo_eq 53 (-1074) 1024 ((2.0 * 3.142) * 0.000197) (-62) 5709027483140148
    (by norm_num) (by norm_num) (by norm_num) (by norm_num) (by norm_num [abs_lt])
    (by norm_num) (by norm_num)]
  norm_num

/-- The `double` operations of the source on the literals `2.0`, `3.142` and `0.000197` give
the `double` nearest to the exact product: the constant of `toDouble_constant`. -/
theorem toDouble_product :
    toDouble 3.142 = .finite (7075155014599049 / 2251799813685248) ∧
      toDouble (2.0 * (7075155014599049 / 2251799813685248)) =
        .finite (7075155014599049 / 1125899906842624) ∧
      toDouble 0.000197 = .finite (7268017165041563 / 36893488147419103232) ∧
      toDouble (7075155014599049 / 1125899906842624 *
          (7268017165041563 / 36893488147419103232)) =
        toDouble ((2.0 * 3.142) * 0.000197) := by
  refine ⟨?_, ?_, ?_, ?_⟩
  · unfold toDouble
    rw [roundTo_eq 53 (-1074) 1024 _ (-51) 7075155014599049
      (by norm_num) (by norm_num) (by norm_num) (by norm_num) (by norm_num [abs_lt])
      (by norm_num) (by norm_num)]
    norm_num
  · unfold toDouble
    rw [roundTo_eq 53 (-1074) 1024 _ (-50) 7075155014599049
      (by norm_num) (by norm_num) (by norm_num) (by norm_num) (by norm_num [abs_lt])
      (by norm_num) (by norm_num)]
    norm_num
  · unfold toDouble
    rw [roundTo_eq 53 (-1074) 1024 _ (-65) 7268017165041563
      (by norm_num) (by norm_num) (by norm_num) (by norm_num) (by norm_num [abs_lt])
      (by norm_num) (by norm_num)]
    norm_num
  · rw [toDouble_constant]
    unfold toDouble
    rw [roundTo_eq 53 (-1074) 1024 _ (-62) 5709027483140148
      (by norm_num) (by norm_num) (by norm_num) (by norm_num) (by norm_num [abs_lt])
      (by norm_num) (by norm_num)]
    norm_num

/-- In IEEE arithmetic the energy `0x1.9f62ecp-17` has the wavelength 100. -/
theorem ieee_divide_100 :
    ieee.divide ((2.0 * 3.142) * 0.000197) (6805691 / 549755813888) = .finite 100 := by
  have hd : toDouble (1427256870785037 / 1152921504606846976 / (6805691 / 549755813888)) =
      .finite (7036874524172389 / 70368744177664) := by
    unfold toDouble
    rw [roundTo_eq 53 (-1074) 1024 _ (-46) 7036874524172389
      (by norm_num) (by norm_num) (by norm_num) (by norm_num) (by norm_num [abs_lt])
      (by norm_num) (by norm_num)]
    norm_num
  rw [ieee_divide_eq _ _ _ _ toDouble_constant (by norm_num) hd]
  unfold toFloat
  rw [roundTo_eq 24 (-149) 128 _ (-17) 13107200
    (by norm_num) (by norm_num) (by norm_num) (by norm_num) (by norm_num [abs_lt])
    (by norm_num) (by norm_num)]
  norm_num

/-- In IEEE arithmetic the energy `0x1.448548p-17` has the wavelength 128. -/
theorem ieee_divide_128 :
    ieee.divide ((2.0 * 3.142) * 0.000197) (2658473 / 274877906944) = .finite 128 := by
  have hd : toDouble (1427256870785037 / 1152921504606846976 / (2658473 / 274877906944)) =
      .finite (4503599774879161 / 35184372088832) := by
    unfold toDouble
    rw [roundTo_eq 53 (-1074) 1024 _ (-45) 4503599774879161
      (by norm_num) (by norm_num) (by norm_num) (by norm_num) (by norm_num [abs_lt])
      (by norm_num) (by norm_num)]
    norm_num
  rw [ieee_divide_eq _ _ _ _ toDouble_constant (by norm_num) hd]
  unfold toFloat
  rw [roundTo_eq 24 (-149) 128 _ (-16) 8388608
    (by norm_num) (by norm_num) (by norm_num) (by norm_num) (by norm_num [abs_lt])
    (by norm_num) (by norm_num)]
  norm_num

/-- In IEEE arithmetic the energy 0 has the wavelength `+inf`. -/
theorem ieee_divide_zero : ieee.divide ((2.0 * 3.142) * 0.000197) 0 = .posInf :=
  ieee_divide_eq_posInf _ _ toDouble_constant (by norm_num)

theorem wavelength_def (fp : Arithmetic) (E t : ℚ) :
    wavelength fp ⟨E, t⟩ = fp.divide ((2.0 * 3.142) * 0.000197) E := rfl

theorem wavelength_ieee_edge (t : ℚ) :
    wavelength ieee ⟨6805691 / 549755813888, t⟩ = .finite 100 := by
  rw [wavelength_def, ieee_divide_100]

theorem wavelength_ieee_zero (t : ℚ) : wavelength ieee ⟨0, t⟩ = .posInf := by
  rw [wavelength_def, ieee_divide_zero]

theorem wavelength_exact_edge (t : ℚ) :
    wavelength exactArithmetic ⟨6805691 / 549755813888, t⟩ =
      .finite (1329236543537152 / 13292365234375) := by
  rw [wavelength_eq _ (by norm_num)]
  norm_num
/-! ## The screen output does not feed back into the state -/

theorem foldl_quiet {α : Type} (f g : SimPhotonCounter → α → SimPhotonCounter)
    (h : ∀ s a, quiet (f s a) = g (quiet s) a) (l : List α) (s : SimPhotonCounter) :
    quiet (l.foldl f s) = l.foldl g (quiet s) := by
  induction l generalizing s with
  | nil => rfl
  | cons a as ih => rw [List.foldl_cons, List.foldl_cons, ih, h]

theorem iterate_quiet (f g : SimPhotonCounter → SimPhotonCounter)
    (h : ∀ s, quiet (f s) = g (quiet s)) (n : Nat) (s : SimPhotonCounter) :
    quiet (Nat.iterate f n s) = Nat.iterate g n (quiet s) := by
  induction n generalizing s with
  | zero => rfl
  | succ n ih => rw [Function.iterate_succ_apply, Function.iterate_succ_apply, ih, h]

theorem liteBody_quiet (cfg : Parameters) (flat : Nat → ℚ) (s : SimPhotonCounter) :
    quiet (liteBody cfg flat s) = liteBody cfg flat (quiet s) := by
  by_cases h : flat s.fired ≤ cfg.fQE ∧ s.fWavelength > .finite cfg.fWavelengthCutLow ∧
      s.fWavelength < .finite cfg.fWavelengthCutHigh <;>
    cases hA : cfg.fMakeAllPhotonsTree <;> cases hD : cfg.fMakeDetectedPhotonsTree <;>
    simp [liteBody, fire, fillPhotonTreeAll, fillPhotonTreeDetected, quiet, h, hA, hD]

theorem liteBodyVerbose_quiet (cfg : Parameters) (flat : Nat → ℚ) (s : SimPhotonCounter) :
    quiet (liteBodyVerbose cfg flat s) = liteBody cfg flat (quiet s) := by
  by_cases h : flat s.fired ≤ cfg.fQE ∧ s.fWavelength > .finite cfg.fWavelengthCutLow ∧
      s.fWavelength < .finite cfg.fWavelengthCutHigh <;>
    cases hA : cfg.fMakeAllPhotonsTree <;> cases hD : cfg.fMakeDetectedPhotonsTree <;>
    simp [liteBodyVerbose, liteBody, fire, fillPhotonTreeAll, fillPhotonTreeDetected, print,
      quiet, h, hA, hD]

theorem photonBody_quiet (fp : Arithmetic) (cfg : Parameters) (flat : Nat → ℚ)
    (s : SimPhotonCounter)
    (Phot : OnePhoton) :
    quiet (photonBody fp cfg flat s Phot) = photonBody fp cfg flat (quiet s) Phot :=
  liteBody_quiet cfg flat { s with fWavelength := wavelength fp Phot, fTime := Phot.Time }

theorem photonBodyVerbose_quiet (fp : Arithmetic) (cfg : Parameters) (flat : Nat → ℚ)
    (s : SimPhotonCounter)
    (Phot : OnePhoton) :
    quiet (photonBodyVerbose fp cfg flat s Phot) = photonBody fp cfg flat (quiet s) Phot :=
  liteBodyVerbose_quiet cfg flat
    (print (.arrivalTime Phot.Time)
      { s with fWavelength := wavelength fp Phot, fTime := Phot.Time })

theorem bucketBody_quiet (cfg : Parameters) (flat : Nat → ℚ) (s : SimPhotonCounter)
    (it : Int × Int) : quiet (bucketBody cfg flat s it) = bucketBody cfg flat (quiet s) it :=
  iterate_quiet (liteBody cfg flat) (liteBody cfg flat) (liteBody_quiet cfg flat) it.2.toNat
    { s with fWavelength := .finite 128, fTime := toFloat_t (toInt (it.1 * 2)) }

theorem bucketBodyVerbose_quiet (cfg : Parameters) (flat : Nat → ℚ) (s : SimPhotonCounter)
    (it : Int × Int) :
    quiet (bucketBodyVerbose cfg flat s it) = bucketBody cfg flat (quiet s) it :=
  iterate_quiet (liteBodyVerbose cfg flat) (liteBody cfg flat) (liteBodyVerbose_quiet cfg flat)
    it.2.toNat
    (print (.arrivalTime (toFloat_t (toInt (it.1 * 2))))
      { s with fWavelength := .finite 128, fTime := toFloat_t (toInt (it.1 * 2)) })

theorem opDetBody_quiet (fp : Arithmetic) (cfg : Parameters) (flat : Nat → ℚ)
    (pvs : PhotonVisibilityService)
    (s : SimPhotonCounter) (itOpDet : Int × List OnePhoton) :
    quiet (opDetBody fp cfg flat pvs s itOpDet) =
      opDetBody fp { cfg with fVerbosity := 0 } flat pvs (quiet s) itOpDet := by
  have hloop : quiet (if cfg.fVerbosity > 3 then
        itOpDet.2.foldl (photonBodyVerbose fp cfg flat)
          { s with fCountOpDetAll := 0, fCountOpDetDetected := 0, fOpChannel := itOpDet.1 }
      else
        itOpDet.2.foldl (photonBody fp cfg flat)
          { s with fCountOpDetAll := 0, fCountOpDetDetected := 0, fOpChannel := itOpDet.1 }) =
      itOpDet.2.foldl (photonBody fp { cfg with fVerbosity := 0 } flat)
        { quiet s with fCountOpDetAll := 0, fCountOpDetDetected := 0,
                       fOpChannel := itOpDet.1 } := by
    split_ifs
    · exact foldl_quiet _ _ (photonBodyVerbose_quiet fp cfg flat) itOpDet.2 _
    · exact foldl_quiet _ _ (photonBody_quiet fp cfg flat) itOpDet.2 _
  unfold opDetBody
  simp only [gt_iff_lt, Int.reduceLT, if_false]
  rw [← hloop]
  generalize (if cfg.fVerbosity > 3 then
        itOpDet.2.foldl (photonBodyVerbose fp cfg flat)
          { s with fCountOpDetAll := 0, fCountOpDetDetected := 0, fOpChannel := itOpDet.1 }
      else
        itOpDet.2.foldl (photonBody fp cfg flat)
          { s with fCountOpDetAll := 0, fCountOpDetDetected := 0, fOpChannel := itOpDet.1 }) = t
  cases hB : pvs.IsBuildJob <;> cases hO : cfg.fMakeOpDetsTree <;>
    by_cases hV : 2 < cfg.fVerbosity <;>
    simp [fillOpDetTree, print, quiet, hB, hO, hV]

theorem liteOpDetBody_quiet (cfg : Parameters) (flat : Nat → ℚ) (s : SimPhotonCounter)
    (photon : SimPhotonsLite) :
    quiet (liteOpDetBody cfg flat s photon) =
      liteOpDetBody { cfg with fVerbosity := 0 } flat (quiet s) photon := by
  have hloop : quiet (if cfg.fVerbosity > 3 then
        photon.DetectedPhotons.foldl (bucketBodyVerbose cfg flat)
          { s with fOpChannel := photon.OpChannel, fCountOpDetAll := 0,
                   fCountOpDetDetected := 0 }
      else
        photon.DetectedPhotons.foldl (bucketBody cfg flat)
          { s with fOpChannel := photon.OpChannel, fCountOpDetAll := 0,
                   fCountOpDetDetected := 0 }) =
      photon.DetectedPhotons.foldl (bucketBody { cfg with fVerbosity := 0 } flat)
        { quiet s with fOpChannel := photon.OpChannel, fCountOpDetAll := 0,
                       fCountOpDetDetected := 0 } := by
    split_ifs
    · exact foldl_quiet _ _ (bucketBodyVerbose_quiet cfg flat) photon.DetectedPhotons _
    · exact foldl_quiet _ _ (bucketBody_quiet cfg flat) photon.DetectedPhotons _
  unfold liteOpDetBody
  simp only [gt_iff_lt, Int.reduceLT, if_false]
  rw [← hloop]
  generalize (if cfg.fVerbosity > 3 then
        photon.DetectedPhotons.foldl (bucketBodyVerbose cfg flat)
          { s with fOpChannel := photon.OpChannel, fCountOpDetAll := 0,
                   fCountOpDetDetected := 0 }
      else
        photon.DetectedPhotons.foldl (bucketBody cfg flat)
          { s with fOpChannel := photon.OpChannel, fCountOpDetAll := 0,
                   fCountOpDetDetected := 0 }) = t
  cases hO : cfg.fMakeOpDetsTree <;> by_cases hV : 2 < cfg.fVerbosity <;>
    simp [fillOpDetTree, print, quiet, hO, hV]

/-- Itemized `analyze`, up to the screen output: the channel loop of verbosity 0 run from
the state with the event number set and the event counters zeroed, then the filling of the
event tree. -/
theorem analyze_itemized_quiet (fp : Arithmetic) (cfg : Parameters) (flat : Nat → ℚ)
    (pvs : PhotonVisibilityService) (evt : Event) (s : SimPhotonCounter) :
    quiet (analyze fp cfg flat pvs false evt s) =
      if cfg.fMakeOpDetEventsTree then
        fillEventTree
          (evt.TheHitCollection.foldl (opDetBody fp { cfg with fVerbosity := 0 } flat pvs)
            (quiet { s with fEventID := evt.event, fCountEventAll := 0,
                            fCountEventDetected := 0 }))
      else
        evt.TheHitCollection.foldl (opDetBody fp { cfg with fVerbosity := 0 } flat pvs)
          (quiet { s with fEventID := evt.event, fCountEventAll := 0,
                          fCountEventDetected := 0 }) := by
  obtain ⟨s₂, h₂, hu⟩ := analyze_itemized_loop fp cfg flat pvs evt s
  have hq : quiet s₂ =
      quiet { s with fEventID := evt.event, fCountEventAll := 0, fCountEventDetected := 0 } := by
    rw [h₂]
    rfl
  have hl := foldl_quiet _ _ (opDetBody_quiet fp cfg flat pvs) evt.TheHitCollection s₂
  rw [hq] at hl
  rw [hu, ← hl]
  cases cfg.fMakeOpDetEventsTree
  · rfl
  · rfl

/-- Bucketed `analyze`, up to the screen output: the channel loop of verbosity 0 run from
the state with the event number set and the event counters zeroed, then the filling of the
event tree. -/
theorem analyze_lite_quiet (fp : Arithmetic) (cfg : Parameters) (flat : Nat → ℚ)
    (pvs : PhotonVisibilityService) (evt : Event) (s : SimPhotonCounter) :
    quiet (analyze fp cfg flat pvs true evt s) =
      if cfg.fMakeOpDetEventsTree then
        fillEventTree
          (evt.photonHandle.foldl (liteOpDetBody { cfg with fVerbosity := 0 } flat)
            (quiet { s with fEventID := evt.event, fCountEventAll := 0,
                            fCountEventDetected := 0 }))
      else
        evt.photonHandle.foldl (liteOpDetBody { cfg with fVerbosity := 0 } flat)
          (quiet { s with fEventID := evt.event, fCountEventAll := 0,
                          fCountEventDetected := 0 }) := by
  obtain ⟨s₂, h₂, hu⟩ := analyze_lite_loop fp cfg flat pvs evt s
  have hq : quiet s₂ =
      quiet { s with fEventID := evt.event, fCountEventAll := 0, fCountEventDetected := 0 } := by
    rw [h₂]
    rfl
  have hl := foldl_quiet _ _ (liteOpDetBody_quiet cfg flat) evt.photonHandle s₂
  rw [hq] at hl
  rw [hu, ← hl]
  cases cfg.fMakeOpDetEventsTree
  · rfl
  · rfl

/-- Up to the screen output, `analyze` leaves the same state for every verbosity. -/
theorem analyze_quiet (fp : Arithmetic) (cfg : Parameters) (v : Int) (flat : Nat → ℚ)
    (pvs : PhotonVisibilityService) (fUseLitePhotons : Bool) (evt : Event)
    (s : SimPhotonCounter) :
    quiet (analyze fp { cfg with fVerbosity := v } flat pvs fUseLitePhotons evt s) =
      quiet (analyze fp { cfg with fVerbosity := 0 } flat pvs fUseLitePhotons evt s) := by
  cases fUseLitePhotons
  · exact (analyze_itemized_quiet fp { cfg with fVerbosity := v } flat pvs evt s).trans
      (analyze_itemized_quiet fp { cfg with fVerbosity := 0 } flat pvs evt s).symm
  · exact (analyze_lite_quiet fp { cfg with fVerbosity := v } flat pvs evt s).trans
      (analyze_lite_quiet fp { cfg with fVerbosity := 0 } flat pvs evt s).symm

/-- Up to the screen output, one iteration of either channel loop leaves the same state for
every verbosity. -/
theorem opDetBody_verbosity (fp : Arithmetic) (cfg : Parameters) (v : Int) (flat : Nat → ℚ)
    (pvs : PhotonVisibilityService) (s : SimPhotonCounter) (itOpDet : Int × List OnePhoton)
    (photon : SimPhotonsLite) :
    quiet (opDetBody fp { cfg with fVerbosity := v } flat pvs s itOpDet) =
        quiet (opDetBody fp { cfg with fVerbosity := 0 } flat pvs s itOpDet) ∧
      quiet (liteOpDetBody { cfg with fVerbosity := v } flat s photon) =
        quiet (liteOpDetBody { cfg with fVerbosity := 0 } flat s photon) :=
  ⟨(opDetBody_quiet fp { cfg with fVerbosity := v } flat pvs s itOpDet).trans
      (opDetBody_quiet fp { cfg with fVerbosity := 0 } flat pvs s itOpDet).symm,
    (liteOpDetBody_quiet { cfg with fVerbosity := v } flat s photon).trans
      (liteOpDetBody_quiet { cfg with fVerbosity := 0 } flat s photon).symm⟩

/-! ## Claims -/

/-- Tallies that itemized `analyze` leaves in the per-channel members: those of the channel
processed last, whose draws start after those of the channels before it. -/
theorem analyze_itemized_last (fp : Arithmetic) (cfg : Parameters) (flat : Nat → ℚ)
    (pvs : PhotonVisibilityService) (ev : Int) (pre : List (Int × List OnePhoton))
    (itOpDet : Int × List OnePhoton) (lites : List SimPhotonsLite) (s : SimPhotonCounter) :
    (analyze fp cfg flat pvs false ⟨ev, pre ++ [itOpDet], lites⟩ s).fCountOpDetAll =
        itOpDet.2.length ∧
      (analyze fp cfg flat pvs false ⟨ev, pre ++ [itOpDet], lites⟩ s).fCountOpDetDetected =
        (detectedFrom cfg flat (s.fired + (pre.map fun c => c.2.length).sum)
          (photonRows fp ev itOpDet.1 itOpDet.2)).length := by
  obtain ⟨s₂, h₂, hu⟩ := analyze_itemized_loop fp cfg flat pvs ⟨ev, pre ++ [itOpDet], lites⟩ s
  have hP := foldl_opDetBody_processed fp cfg flat pvs pre s₂
  have hT := opDetBody_tallied fp cfg flat pvs (pre.foldl (opDetBody fp cfg flat pvs) s₂) itOpDet
  have a₁ : s₂.fEventID = ev := by rw [h₂]
  have a₄ : s₂.fired = s.fired := by rw [h₂]
  have f₁ := hP.fired
  have f₂ := hP.fEventID
  rw [a₁] at f₂
  rw [a₁, photonRows_flatMap_length, a₄] at f₁
  have c₁ := hT.fCountOpDetAll
  have c₂ := hT.fCountOpDetDetected
  rw [f₂] at c₁ c₂
  rw [f₁] at c₂
  have hl : (photonRows fp ev itOpDet.1 itOpDet.2).length = itOpDet.2.length := by
    simp [photonRows]
  rw [hl] at c₁
  rw [hu]
  simp only [List.foldl_append, List.foldl_cons, List.foldl_nil]
  cases cfg.fMakeOpDetEventsTree
  · exact ⟨c₁, c₂⟩
  · exact ⟨c₁, c₂⟩

/-- A channel of one photon whose wavelength is outside the sensitive range, or on one of its
limits, or not a number, leaves the detected count of the channel at 0. -/
theorem analyze_itemized_single (fp : Arithmetic) (cfg : Parameters) (flat : Nat → ℚ)
    (pvs : PhotonVisibilityService) (ev ch : Int) (pre : List (Int × List OnePhoton))
    (Phot : OnePhoton) (lites : List SimPhotonsLite) (s : SimPhotonCounter)
    (h : ¬ (wavelength fp Phot > .finite cfg.fWavelengthCutLow ∧
      wavelength fp Phot < .finite cfg.fWavelengthCutHigh)) :
    (analyze fp cfg flat pvs false ⟨ev, pre ++ [(ch, [Phot])], lites⟩ s).fCountOpDetDetected =
      0 := by
  rw [(analyze_itemized_last fp cfg flat pvs ev pre (ch, [Phot]) lites s).2]
  have hn : ¬ accepts cfg (flat (s.fired + (pre.map fun c => c.2.length).sum))
      (wavelength fp Phot) := fun ha => h ha.2
  simp [photonRows, detectedFrom, hn]

/-- Claim C1.  Itemized input, whatever the floating-point arithmetic `fp`: one iteration of
the channel loop, entered in any state `s` for the channel `itOpDet`, leaves `fCountOpDetAll`
equal to the number `n` of photons of the channel and `fCountOpDetDetected` equal to the
number of photons `i` with `u i ≤ fQE` and `fWavelengthCutLow < w i < fWavelengthCutHigh`,
both comparisons strict, where `u 0, ..., u (n-1)` are the draws made for the channel, in
photon order, and `w i` is the wavelength of photon `i`, the `Float_t` that the photon loop
stores in `fWavelength`; these are the counts written to the `OpDets` tree.  After `analyze`
the two members hold these counts for the channel processed last.  In IEEE arithmetic, with
the sensitive range from 100 to 200, a channel of one photon of energy `0x1.9f62ecp-17`,
whose wavelength is rounded to the limit 100, has the detected count 0, and so has a channel
of one photon of energy 0, whose wavelength is `+inf`. -/
theorem analyze_itemized_counts (fp : Arithmetic) (cfg : Parameters) (flat : Nat → ℚ)
    (pvs : PhotonVisibilityService) (s : SimPhotonCounter) (itOpDet : Int × List OnePhoton)
    (ev : Int) (pre : List (Int × List OnePhoton)) (lites : List SimPhotonsLite)
    (Phot : OnePhoton) :
    ((photonBody fp cfg flat s Phot).fWavelength = wavelength fp Phot ∧
      (photonBodyVerbose fp cfg flat s Phot).fWavelength = wavelength fp Phot) ∧
    ((opDetBody fp cfg flat pvs s itOpDet).fCountOpDetAll = itOpDet.2.length ∧
      (opDetBody fp cfg flat pvs s itOpDet).fCountOpDetDetected =
        List.countP
          (fun x : ℚ × OnePhoton =>
            decide (x.1 ≤ cfg.fQE ∧ wavelength fp x.2 > .finite cfg.fWavelengthCutLow ∧
              wavelength fp x.2 < .finite cfg.fWavelengthCutHigh))
          (List.zip ((List.range itOpDet.2.length).map fun i => flat (s.fired + i))
            itOpDet.2) ∧
      (opDetBody fp cfg flat pvs s itOpDet).fTheOpDetTree =
        s.fTheOpDetTree ++
          (if cfg.fMakeOpDetsTree then
            [⟨s.fEventID, itOpDet.1, (opDetBody fp cfg flat pvs s itOpDet).fCountOpDetAll,
              (opDetBody fp cfg flat pvs s itOpDet).fCountOpDetDetected⟩]
          else [])) ∧
    ((analyze fp cfg flat pvs false ⟨ev, pre ++ [itOpDet], lites⟩ s).fCountOpDetAll =
        itOpDet.2.length ∧
      (analyze fp cfg flat pvs false ⟨ev, pre ++ [itOpDet], lites⟩ s).fCountOpDetDetected =
        List.countP
          (fun x : ℚ × OnePhoton =>
            decide (x.1 ≤ cfg.fQE ∧ wavelength fp x.2 > .finite cfg.fWavelengthCutLow ∧
              wavelength fp x.2 < .finite cfg.fWavelengthCutHigh))
          (List.zip
            ((List.range itOpDet.2.length).map fun i =>
              flat (s.fired + (pre.map fun c => c.2.length).sum + i))
            itOpDet.2)) ∧
    (wavelength ieee ⟨6805691 / 549755813888, Phot.Time⟩ = .finite 100 ∧
      (analyze ieee (exampleParameters 1) flat pvs false
        ⟨ev, pre ++ [(itOpDet.1, [⟨6805691 / 549755813888, Phot.Time⟩])], lites⟩
        s).fCountOpDetDetected = 0 ∧
      wavelength ieee ⟨0, Phot.Time⟩ = .posInf ∧
      (analyze ieee (exampleParameters 1) flat pvs false
        ⟨ev, pre ++ [(itOpDet.1, [⟨0, Phot.Time⟩])], lites⟩ s).fCountOpDetDetected = 0) := by
  have hT := opDetBody_tallied fp cfg flat pvs s itOpDet
  have hl : (photonRows fp s.fEventID itOpDet.1 itOpDet.2).length = itOpDet.2.length := by
    simp [photonRows]
  have hA := analyze_itemized_last fp cfg flat pvs ev pre itOpDet lites s
  have i₁ := analyze_itemized_single ieee (exampleParameters 1) flat pvs ev itOpDet.1 pre
    ⟨6805691 / 549755813888, Phot.Time⟩ lites s
    (by rw [wavelength_ieee_edge]; decide)
  have i₂ := analyze_itemized_single ieee (exampleParameters 1) flat pvs ev itOpDet.1 pre
    ⟨0, Phot.Time⟩ lites s (by rw [wavelength_ieee_zero]; decide)
  refine ⟨photonBody_fWavelength fp cfg flat s Phot, ⟨?_, ?_, ?_⟩, ⟨hA.1, ?_⟩,
    wavelength_ieee_edge _, i₁, wavelength_ieee_zero _, i₂⟩
  · rw [hT.fCountOpDetAll, hl]
  · rw [hT.fCountOpDetDetected, detectedFrom_photonRows_length]
  · rw [hT.fTheOpDetTree, hT.fCountOpDetAll, hT.fCountOpDetDetected]
  · rw [hA.2, detectedFrom_photonRows_length]

/-- Claim C2.  In both representations the detected count never exceeds the count of all
photons: in the per-channel members after one iteration of either channel loop (entered in
any state), in the per-event members after `analyze`, and in every row that `analyze` adds to
the `OpDets` tree and to the `OpDetEvents` tree. -/
theorem analyze_detected_le_all (fp : Arithmetic) (cfg : Parameters) (flat : Nat → ℚ)
    (pvs : PhotonVisibilityService) (fUseLitePhotons : Bool) (evt : Event)
    (s s₀ : SimPhotonCounter) (itOpDet : Int × List OnePhoton) (photon : SimPhotonsLite) :
    (opDetBody fp cfg flat pvs s₀ itOpDet).fCountOpDetDetected ≤
        (opDetBody fp cfg flat pvs s₀ itOpDet).fCountOpDetAll ∧
      (liteOpDetBody cfg flat s₀ photon).fCountOpDetDetected ≤
        (liteOpDetBody cfg flat s₀ photon).fCountOpDetAll ∧
      (analyze fp cfg flat pvs fUseLitePhotons evt s).fCountEventDetected ≤
        (analyze fp cfg flat pvs fUseLitePhotons evt s).fCountEventAll ∧
      (∃ rows : List OpDetRow,
        (analyze fp cfg flat pvs fUseLitePhotons evt s).fTheOpDetTree = s.fTheOpDetTree ++ rows ∧
          ∀ r ∈ rows, r.CountDetected ≤ r.CountAll) ∧
      (∃ rows : List EventRow,
        (analyze fp cfg flat pvs fUseLitePhotons evt s).fTheEventTree = s.fTheEventTree ++ rows ∧
          ∀ r ∈ rows, r.CountDetected ≤ r.CountAll) := by
  have h₁ := opDetBody_tallied fp cfg flat pvs s₀ itOpDet
  have h₂ := liteOpDetBody_tallied cfg flat s₀ photon
  have hA := analyze_analyzed fp cfg flat pvs fUseLitePhotons evt s
  have hle : (analyze fp cfg flat pvs fUseLitePhotons evt s).fCountEventDetected ≤
      (analyze fp cfg flat pvs fUseLitePhotons evt s).fCountEventAll := by
    rw [hA.fCountEventDetected, hA.fCountEventAll]
    exact talliesFrom_sum_le cfg flat evt.event s.fired _
  refine ⟨?_, ?_, hle, ⟨_, hA.fTheOpDetTree, ?_⟩, ⟨_, hA.fTheEventTree, ?_⟩⟩
  · rw [h₁.fCountOpDetDetected, h₁.fCountOpDetAll]
    exact Int.ofNat_le.mpr (detectedFrom_length_le cfg flat _ _)
  · rw [h₂.fCountOpDetDetected, h₂.fCountOpDetAll]
    exact Int.ofNat_le.mpr (detectedFrom_length_le cfg flat _ _)
  · intro r hr
    cases hO : cfg.fMakeOpDetsTree
    · simp [hO] at hr
    · simp only [hO, if_true] at hr
      exact talliesFrom_le cfg flat evt.event s.fired _ r hr
  · intro r hr
    cases hE : cfg.fMakeOpDetEventsTree
    · simp [hE] at hr
    · simp only [hE, if_true, List.mem_singleton] at hr
      rw [hr]
      exact hle

/-- Claim C3.  In both representations, from any state `s`: let `T` be the tallies of the
channels of the event, one per channel in input order, each counting the photons of its own
channel only; `T` is what `analyze` writes to the `OpDets` tree when that tree is made.  Then
`analyze` leaves in the per-event members the sums of `CountAll` and of `CountDetected` over
`T`, and writes the event number with these two sums to the `OpDetEvents` tree when that tree
is made.  Nothing of `s` enters the tallies or the sums. -/
theorem analyze_event_tally_is_sum (fp : Arithmetic) (cfg : Parameters) (flat : Nat → ℚ)
    (pvs : PhotonVisibilityService) (fUseLitePhotons : Bool) (evt : Event)
    (s : SimPhotonCounter) :
    (talliesFrom cfg flat evt.event s.fired (opDetPhotons fp fUseLitePhotons evt)).map
        (fun r => (r.EventID, r.OpChannel, r.CountAll)) =
        (opDetPhotons fp fUseLitePhotons evt).map (fun c => (evt.event, c.1, (c.2.length : Int))) ∧
      (analyze fp { cfg with fMakeOpDetsTree := true } flat pvs fUseLitePhotons evt s).fTheOpDetTree =
        s.fTheOpDetTree ++
          talliesFrom cfg flat evt.event s.fired (opDetPhotons fp fUseLitePhotons evt) ∧
      (analyze fp cfg flat pvs fUseLitePhotons evt s).fTheOpDetTree =
        s.fTheOpDetTree ++
          (if cfg.fMakeOpDetsTree then
            talliesFrom cfg flat evt.event s.fired (opDetPhotons fp fUseLitePhotons evt)
          else []) ∧
      (analyze fp cfg flat pvs fUseLitePhotons evt s).fCountEventAll =
        ((talliesFrom cfg flat evt.event s.fired (opDetPhotons fp fUseLitePhotons evt)).map
          fun r => r.CountAll).sum ∧
      (analyze fp cfg flat pvs fUseLitePhotons evt s).fCountEventDetected =
        ((talliesFrom cfg flat evt.event s.fired (opDetPhotons fp fUseLitePhotons evt)).map
          fun r => r.CountDetected).sum ∧
      (analyze fp cfg flat pvs fUseLitePhotons evt s).fTheEventTree =
        s.fTheEventTree ++
          (if cfg.fMakeOpDetEventsTree then
            [⟨evt.event,
              ((talliesFrom cfg flat evt.event s.fired (opDetPhotons fp fUseLitePhotons evt)).map
                fun r => r.CountAll).sum,
              ((talliesFrom cfg flat evt.event s.fired (opDetPhotons fp fUseLitePhotons evt)).map
                fun r => r.CountDetected).sum⟩]
          else []) := by
  have hA := analyze_analyzed fp cfg flat pvs fUseLitePhotons evt s
  have hB := analyze_analyzed fp { cfg with fMakeOpDetsTree := true } flat pvs fUseLitePhotons evt s
  refine ⟨talliesFrom_countAll cfg flat evt.event s.fired _, ?_, hA.fTheOpDetTree,
    hA.fCountEventAll, hA.fCountEventDetected, ?_⟩
  · rw [hB.fTheOpDetTree]
    simp only [if_true]
    rw [talliesFrom_congr cfg { cfg with fMakeOpDetsTree := true } flat rfl rfl rfl]
  · rw [hA.fTheEventTree, hA.fCountEventAll, hA.fCountEventDetected]

set_option maxRecDepth 4000 in
/-- Claim C4, as stated, fails: with `fQE = 0`, the band `(100, 200)` and a stream whose
draws are all `0` (a value of `[0,1)`), the bucketed event 5 with one photon in channel 1 is
counted as detected, for the channel and for the event, because the test is `u ≤ fQE`. -/
theorem analyze_qe_zero_detects_zero_draw :
    (exampleParameters 0).fQE = 0 ∧
      (∀ i : Nat, (0 : ℚ) ≤ (fun _ : Nat => (0 : ℚ)) i ∧ (fun _ : Nat => (0 : ℚ)) i < 1) ∧
      (analyze ieee (exampleParameters 0) (fun _ => 0) { IsBuildJob := false, VoxID := 0, NProd := 1 }
        true
        { event := 5, TheHitCollection := [],
          photonHandle := [{ OpChannel := 1, DetectedPhotons := [(3, 1)] }] }
        beginJob).fTheOpDetTree =
        [{ EventID := 5, OpChannel := 1, CountAll := 1, CountDetected := 1 }] ∧
      (analyze ieee (exampleParameters 0) (fun _ => 0) { IsBuildJob := false, VoxID := 0, NProd := 1 }
        true
        { event := 5, TheHitCollection := [],
          photonHandle := [{ OpChannel := 1, DetectedPhotons := [(3, 1)] }] }
        beginJob).fTheEventTree =
        [{ EventID := 5, CountAll := 1, CountDetected := 1 }] := by
  refine ⟨rfl, fun i => ⟨le_refl _, by norm_num⟩, ?_, ?_⟩ <;> decide

/-- Claim C4, amended.  With `fQE = 0` and a stream whose draws are all strictly positive,
whatever the event, its representation and the band: after one iteration of either channel
loop `fCountOpDetDetected` is 0, after `analyze` `fCountEventDetected` is 0, every row added
to the `OpDets` tree and to the `OpDetEvents` tree has `CountDetected = 0`, and nothing is
added to the `DetectedPhotons` tree. -/
theorem analyze_qe_zero (fp : Arithmetic) (cfg : Parameters) (flat : Nat → ℚ)
    (pvs : PhotonVisibilityService)
    (fUseLitePhotons : Bool) (evt : Event) (s s₀ : SimPhotonCounter)
    (itOpDet : Int × List OnePhoton) (photon : SimPhotonsLite)
    (hQE : cfg.fQE = 0) (hpos : ∀ i, 0 < flat i) :
    (opDetBody fp cfg flat pvs s₀ itOpDet).fCountOpDetDetected = 0 ∧
      (liteOpDetBody cfg flat s₀ photon).fCountOpDetDetected = 0 ∧
      (analyze fp cfg flat pvs fUseLitePhotons evt s).fCountEventDetected = 0 ∧
      (∃ rows : List OpDetRow,
        (analyze fp cfg flat pvs fUseLitePhotons evt s).fTheOpDetTree = s.fTheOpDetTree ++ rows ∧
          ∀ r ∈ rows, r.CountDetected = 0) ∧
      (∃ rows : List EventRow,
        (analyze fp cfg flat pvs fUseLitePhotons evt s).fTheEventTree = s.fTheEventTree ++ rows ∧
          ∀ r ∈ rows, r.CountDetected = 0) ∧
      (analyze fp cfg flat pvs fUseLitePhotons evt s).fThePhotonTreeDetected =
        s.fThePhotonTreeDetected := by
  have h₁ := opDetBody_tallied fp cfg flat pvs s₀ itOpDet
  have h₂ := liteOpDetBody_tallied cfg flat s₀ photon
  have hA := analyze_analyzed fp cfg flat pvs fUseLitePhotons evt s
  have h0 : (analyze fp cfg flat pvs fUseLitePhotons evt s).fCountEventDetected = 0 := by
    rw [hA.fCountEventDetected]
    exact talliesFrom_sum_countDetected_zero cfg flat hQE hpos evt.event s.fired _
  refine ⟨?_, ?_, h0, ⟨_, hA.fTheOpDetTree, ?_⟩, ⟨_, hA.fTheEventTree, ?_⟩, ?_⟩
  · rw [h₁.fCountOpDetDetected, detectedFrom_eq_nil cfg flat hQE hpos]; rfl
  · rw [h₂.fCountOpDetDetected, detectedFrom_eq_nil cfg flat hQE hpos]; rfl
  · intro r hr
    cases hO : cfg.fMakeOpDetsTree
    · simp [hO] at hr
    · simp only [hO, if_true] at hr
      exact talliesFrom_countDetected_zero cfg flat hQE hpos evt.event s.fired _ r hr
  · intro r hr
    cases hE : cfg.fMakeOpDetEventsTree
    · simp [hE] at hr
    · simp only [hE, if_true, List.mem_singleton] at hr
      rw [hr]
      exact h0
  · rw [hA.fThePhotonTreeDetected, detectedFrom_eq_nil cfg flat hQE hpos]
    cases cfg.fMakeDetectedPhotonsTree <;> simp

/-- Instance of the amended claim C4: `fQE = 0`, all draws equal to `1/2`, the bucketed
event 5 with three photons of channel 1, all in the band. -/
theorem analyze_qe_zero_witness :
    (exampleParameters 0).fQE = 0 ∧ (∀ i : Nat, (0 : ℚ) < (fun _ : Nat => (1 / 2 : ℚ)) i) ∧
      (analyze ieee (exampleParameters 0) (fun _ => 1 / 2)
        { IsBuildJob := false, VoxID := 0, NProd := 1 } true
        { event := 5, TheHitCollection := [],
          photonHandle := [{ OpChannel := 1, DetectedPhotons := [(3, 2), (4, 1)] }] }
        beginJob).fCountEventDetected = 0 :=
  ⟨rfl, fun _ => by norm_num,
    (analyze_qe_zero ieee (exampleParameters 0) (fun _ => 1 / 2)
      { IsBuildJob := false, VoxID := 0, NProd := 1 } true
      { event := 5, TheHitCollection := [],
        photonHandle := [{ OpChannel := 1, DetectedPhotons := [(3, 2), (4, 1)] }] }
      beginJob beginJob (1, []) { OpChannel := 1, DetectedPhotons := [] } rfl
      (fun _ => by norm_num)).2.2.1⟩

/-- Claim C5.  In both representations `analyze` reads one draw per photon of the event: the
engine advances by the number of photons (photon records, resp. units of the bucket counts),
which is the value left in `fCountEventAll`, and by the same number for any other
`fQE`, `fWavelengthCutLow`, `fWavelengthCutHigh`.  The photon at position `i` of the event
(channels in input order, photons in order within a channel; this is the order of the rows of
the `AllPhotons` tree) is judged with the draw `flat (s.fired + i)`, whether or not its
wavelength is in the band: the rows added to the `DetectedPhotons` tree are those of the
photons whose own draw and wavelength pass the test. -/
theorem analyze_one_draw_per_photon (fp : Arithmetic) (cfg : Parameters) (flat : Nat → ℚ)
    (pvs : PhotonVisibilityService) (fUseLitePhotons : Bool) (evt : Event)
    (s : SimPhotonCounter) (QE low high : ℚ) :
    (analyze fp cfg flat pvs fUseLitePhotons evt s).fired =
        s.fired + (allPhotons fp fUseLitePhotons evt).length ∧
      (allPhotons fp fUseLitePhotons evt).length =
        (if fUseLitePhotons then
          (evt.photonHandle.map fun photon =>
            (photon.DetectedPhotons.map fun it => it.2.toNat).sum).sum
        else (evt.TheHitCollection.map fun itOpDet => itOpDet.2.length).sum) ∧
      ((analyze fp cfg flat pvs fUseLitePhotons evt s).fired : Int) =
        s.fired + (analyze fp cfg flat pvs fUseLitePhotons evt s).fCountEventAll ∧
      (analyze fp { cfg with fQE := QE, fWavelengthCutLow := low, fWavelengthCutHigh := high }
          flat pvs fUseLitePhotons evt s).fired =
        (analyze fp cfg flat pvs fUseLitePhotons evt s).fired ∧
      (analyze fp cfg flat pvs fUseLitePhotons evt s).fThePhotonTreeAll =
        s.fThePhotonTreeAll ++
          (if cfg.fMakeAllPhotonsTree then allPhotons fp fUseLitePhotons evt else []) ∧
      (analyze fp cfg flat pvs fUseLitePhotons evt s).fThePhotonTreeDetected =
        s.fThePhotonTreeDetected ++
          (if cfg.fMakeDetectedPhotonsTree then
            ((List.zip
                ((List.range (allPhotons fp fUseLitePhotons evt).length).map fun i =>
                  flat (s.fired + i))
                (allPhotons fp fUseLitePhotons evt)).filter
              fun x =>
                decide (x.1 ≤ cfg.fQE ∧ x.2.Wavelength > .finite cfg.fWavelengthCutLow ∧
                  x.2.Wavelength < .finite cfg.fWavelengthCutHigh)).map Prod.snd
          else []) := by
  have hA := analyze_analyzed fp cfg flat pvs fUseLitePhotons evt s
  have hB := analyze_analyzed fp
    { cfg with fQE := QE, fWavelengthCutLow := low, fWavelengthCutHigh := high }
    flat pvs fUseLitePhotons evt s
  refine ⟨hA.fired, allPhotons_length fp fUseLitePhotons evt, ?_, ?_, hA.fThePhotonTreeAll, ?_⟩
  · rw [hA.fired, hA.fCountEventAll, talliesFrom_sum_countAll]
    push_cast
    rfl
  · rw [hA.fired, hB.fired]
  · rw [hA.fThePhotonTreeDetected, detectedFrom_eq_filter]
    rfl

/-- Claim C6.  With the `OpDetEvents` tree made, an event with no channel in the
representation in use makes `analyze`, from any state `s`, add the single row
`(event, 0, 0)` to the `OpDetEvents` tree and nothing to the `OpDets`, `AllPhotons` and
`DetectedPhotons` trees. -/
theorem analyze_empty_event (fp : Arithmetic) (cfg : Parameters) (flat : Nat → ℚ)
    (pvs : PhotonVisibilityService) (fUseLitePhotons : Bool) (evt : Event)
    (s : SimPhotonCounter) (hE : cfg.fMakeOpDetEventsTree = true)
    (h0 : (if fUseLitePhotons then evt.photonHandle.length
            else evt.TheHitCollection.length) = 0) :
    (analyze fp cfg flat pvs fUseLitePhotons evt s).fTheEventTree =
        s.fTheEventTree ++ [⟨evt.event, 0, 0⟩] ∧
      (analyze fp cfg flat pvs fUseLitePhotons evt s).fTheOpDetTree = s.fTheOpDetTree ∧
      (analyze fp cfg flat pvs fUseLitePhotons evt s).fThePhotonTreeAll = s.fThePhotonTreeAll ∧
      (analyze fp cfg flat pvs fUseLitePhotons evt s).fThePhotonTreeDetected =
        s.fThePhotonTreeDetected := by
  have hA := analyze_analyzed fp cfg flat pvs fUseLitePhotons evt s
  have hch : opDetPhotons fp fUseLitePhotons evt = [] := by
    cases fUseLitePhotons
    · simp only [Bool.false_eq_true, if_false, List.length_eq_zero] at h0
      simp [opDetPhotons, h0]
    · simp only [if_true, List.length_eq_zero] at h0
      simp [opDetPhotons, h0]
  have hall : allPhotons fp fUseLitePhotons evt = [] := by simp [allPhotons, hch]
  have e₁ := hA.fCountEventAll
  have e₂ := hA.fCountEventDetected
  have e₃ := hA.fTheEventTree
  have e₄ := hA.fTheOpDetTree
  have e₅ := hA.fThePhotonTreeAll
  have e₆ := hA.fThePhotonTreeDetected
  rw [hch] at e₁ e₂ e₄
  rw [hall] at e₅ e₆
  simp only [talliesFrom, List.map_nil, List.sum_nil] at e₁ e₂
  rw [e₁, e₂, hE] at e₃
  refine ⟨by simpa using e₃, by simpa [talliesFrom] using e₄, by simpa using e₅, ?_⟩
  simpa [detectedFrom] using e₆

set_option maxRecDepth 4000 in
/-- Instance of claim C6: event 5 without channels, bucketed and itemized, processed in the
state left by an event 4 that had counted 9 photons and detected 3. -/
theorem analyze_empty_event_witness :
    (analyze ieee (exampleParameters 1) (fun _ => 0) { IsBuildJob := false, VoxID := 0, NProd := 1 }
      true { event := 5, TheHitCollection := [], photonHandle := [] }
      { beginJob with
        fCountOpDetAll := 4, fCountOpDetDetected := 2, fCountEventAll := 9,
        fCountEventDetected := 3, fEventID := 4, fOpChannel := 1,
        fTheOpDetTree := [{ EventID := 4, OpChannel := 1, CountAll := 4, CountDetected := 2 }],
        fTheEventTree := [{ EventID := 4, CountAll := 9, CountDetected := 3 }],
        fired := 9 }).fTheEventTree =
        [{ EventID := 4, CountAll := 9, CountDetected := 3 },
          { EventID := 5, CountAll := 0, CountDetected := 0 }] ∧
      (analyze ieee (exampleParameters 1) (fun _ => 0)
        { IsBuildJob := false, VoxID := 0, NProd := 1 }
        false { event := 5, TheHitCollection := [], photonHandle := [] }
        { beginJob with
          fCountOpDetAll := 4, fCountOpDetDetected := 2, fCountEventAll := 9,
          fCountEventDetected := 3, fEventID := 4, fOpChannel := 1,
          fTheOpDetTree := [{ EventID := 4, OpChannel := 1, CountAll := 4, CountDetected := 2 }],
          fTheEventTree := [{ EventID := 4, CountAll := 9, CountDetected := 3 }],
          fired := 9 }).fTheEventTree =
        [{ EventID := 4, CountAll := 9, CountDetected := 3 },
          { EventID := 5, CountAll := 0, CountDetected := 0 }] :=
  ⟨(analyze_empty_event ieee (exampleParameters 1) (fun _ => 0)
      { IsBuildJob := false, VoxID := 0, NProd := 1 }
      true { event := 5, TheHitCollection := [], photonHandle := [] }
      { beginJob with
        fCountOpDetAll := 4, fCountOpDetDetected := 2, fCountEventAll := 9,
        fCountEventDetected := 3, fEventID := 4, fOpChannel := 1,
        fTheOpDetTree := [{ EventID := 4, OpChannel := 1, CountAll := 4, CountDetected := 2 }],
        fTheEventTree := [{ EventID := 4, CountAll := 9, CountDetected := 3 }],
        fired := 9 } rfl rfl).1,
    by decide⟩

set_option maxRecDepth 8000 in
/-- Claim C7, as stated, fails: `fTime` is a `Float_t`, so the product `2 * bucket` is rounded
to 24 significant bits.  For the bucketed event 5 with one photon of channel 1 in the bucket
16777217, the row added to the `AllPhotons` tree has the time 33554432, not
`16777217 * 2 = 33554434`. -/
theorem analyze_lite_time_rounded :
    (analyze ieee (exampleParameters 1) (fun _ => 0)
      { IsBuildJob := false, VoxID := 0, NProd := 1 } true
      { event := 5, TheHitCollection := [],
        photonHandle := [{ OpChannel := 1, DetectedPhotons := [(16777217, 1)] }] }
      beginJob).fThePhotonTreeAll =
        [{ EventID := 5, Wavelength := .finite 128, OpChannel := 1, Time := 33554432 }] ∧
      (33554432 : ℚ) ≠ ((16777217 * 2 : Int) : ℚ) := by
  refine ⟨by decide, by norm_num⟩

/-- Claim C7, amended.  Bucketed input: for an entry `it = (bucket, count)` of the map of a
channel, the loop over the entry (in both verbosity variants) adds to the `AllPhotons` tree,
when it is made, `count` rows with wavelength 128 and with the time `2 * bucket` converted to
`Float_t`, and every row it adds to the `DetectedPhotons` tree has that wavelength and that
time.  For an entry `it₀` whose bucket has absolute value at most `2^23` the time is exactly
`2 * bucket`.  Every detail row that bucketed `analyze` adds has wavelength 128 and the
converted time of an entry of its channel.  For a single channel with the single entry
`(3, 10)` the rows added to the `AllPhotons` tree are 10 rows with wavelength 128 and
time 6. -/
theorem analyze_lite_detail_rows (fp : Arithmetic) (cfg : Parameters) (flat : Nat → ℚ)
    (pvs : PhotonVisibilityService) (s : SimPhotonCounter) (it it₀ : Int × Int) (evt : Event)
    (ev ch : Int) (hits : List (Int × List OnePhoton)) (hb : it₀.1.natAbs ≤ 2 ^ 23) :
    ((bucketBody cfg flat s it).fThePhotonTreeAll =
        s.fThePhotonTreeAll ++
          (if cfg.fMakeAllPhotonsTree then
            List.replicate it.2.toNat
              ⟨s.fEventID, .finite 128, s.fOpChannel, toFloat_t (toInt (it.1 * 2))⟩
          else []) ∧
      ∃ rows : List PhotonRow,
        (bucketBody cfg flat s it).fThePhotonTreeDetected = s.fThePhotonTreeDetected ++ rows ∧
          ∀ r ∈ rows, r.Wavelength = .finite 128 ∧ r.Time = toFloat_t (toInt (it.1 * 2))) ∧
    ((bucketBodyVerbose cfg flat s it).fThePhotonTreeAll =
        s.fThePhotonTreeAll ++
          (if cfg.fMakeAllPhotonsTree then
            List.replicate it.2.toNat
              ⟨s.fEventID, .finite 128, s.fOpChannel, toFloat_t (toInt (it.1 * 2))⟩
          else []) ∧
      ∃ rows : List PhotonRow,
        (bucketBodyVerbose cfg flat s it).fThePhotonTreeDetected =
            s.fThePhotonTreeDetected ++ rows ∧
          ∀ r ∈ rows, r.Wavelength = .finite 128 ∧ r.Time = toFloat_t (toInt (it.1 * 2))) ∧
    (toFloat_t (toInt (it₀.1 * 2)) = ((it₀.1 * 2 : Int) : ℚ) ∧
      (bucketBody cfg flat s it₀).fThePhotonTreeAll =
        s.fThePhotonTreeAll ++
          (if cfg.fMakeAllPhotonsTree then
            List.replicate it₀.2.toNat
              ⟨s.fEventID, .finite 128, s.fOpChannel, ((it₀.1 * 2 : Int) : ℚ)⟩
          else []) ∧
      (bucketBodyVerbose cfg flat s it₀).fThePhotonTreeAll =
        s.fThePhotonTreeAll ++
          (if cfg.fMakeAllPhotonsTree then
            List.replicate it₀.2.toNat
              ⟨s.fEventID, .finite 128, s.fOpChannel, ((it₀.1 * 2 : Int) : ℚ)⟩
          else [])) ∧
    (∃ rowsAll rowsDetected : List PhotonRow,
      (analyze fp cfg flat pvs true evt s).fThePhotonTreeAll = s.fThePhotonTreeAll ++ rowsAll ∧
        (analyze fp cfg flat pvs true evt s).fThePhotonTreeDetected =
          s.fThePhotonTreeDetected ++ rowsDetected ∧
        ∀ r, r ∈ rowsAll ∨ r ∈ rowsDetected →
          r.Wavelength = .finite 128 ∧
            ∃ photon ∈ evt.photonHandle, ∃ b ∈ photon.DetectedPhotons,
              r.OpChannel = photon.OpChannel ∧ r.Time = toFloat_t (toInt (b.1 * 2))) ∧
    (analyze fp cfg flat pvs true ⟨ev, hits, [⟨ch, [(3, 10)]⟩]⟩ s).fThePhotonTreeAll =
      s.fThePhotonTreeAll ++
        (if cfg.fMakeAllPhotonsTree then List.replicate 10 ⟨ev, .finite 128, ch, 6⟩ else []) := by
  have hmem : ∀ r ∈ detectedFrom cfg flat s.fired
      (List.replicate it.2.toNat
        (⟨s.fEventID, .finite 128, s.fOpChannel, toFloat_t (toInt (it.1 * 2))⟩ : PhotonRow)),
      r.Wavelength = .finite 128 ∧ r.Time = toFloat_t (toInt (it.1 * 2)) := by
    intro r hr
    have := List.eq_of_mem_replicate (detectedFrom_subset cfg flat _ _ r hr)
    subst this
    exact ⟨rfl, rfl⟩
  have hrows : ∀ r ∈ (if cfg.fMakeDetectedPhotonsTree then
      detectedFrom cfg flat s.fired
        (List.replicate it.2.toNat
          (⟨s.fEventID, .finite 128, s.fOpChannel, toFloat_t (toInt (it.1 * 2))⟩ : PhotonRow))
      else []), r.Wavelength = .finite 128 ∧ r.Time = toFloat_t (toInt (it.1 * 2)) := by
    intro r hr
    cases hD : cfg.fMakeDetectedPhotonsTree
    · simp [hD] at hr
    · simp only [hD, if_true] at hr
      exact hmem r hr
  have h₁ := bucketBody_recorded cfg flat s it
  have h₂ := bucketBodyVerbose_recorded cfg flat s it
  have h₃ := (bucketBody_recorded cfg flat s it₀).fThePhotonTreeAll
  have h₄ := (bucketBodyVerbose_recorded cfg flat s it₀).fThePhotonTreeAll
  have hx : toFloat_t (toInt (it₀.1 * 2)) = ((it₀.1 * 2 : Int) : ℚ) := by
    have e : (it₀.1 * 2).natAbs = it₀.1.natAbs * 2 := by
      rw [Int.natAbs_mul]
      rfl
    rw [toInt_exact _ (by rw [e]; omega)]
    apply toFloat_t_exact
    rw [e]
    omega
  rw [hx] at h₃ h₄
  have hA := analyze_analyzed fp cfg flat pvs true evt s
  have hS := analyze_analyzed fp cfg flat pvs true ⟨ev, hits, [⟨ch, [(3, 10)]⟩]⟩ s
  refine ⟨⟨h₁.fThePhotonTreeAll, _, h₁.fThePhotonTreeDetected, hrows⟩,
    ⟨h₂.fThePhotonTreeAll, _, h₂.fThePhotonTreeDetected, hrows⟩, ⟨hx, h₃, h₄⟩,
    ⟨_, _, hA.fThePhotonTreeAll, hA.fThePhotonTreeDetected, ?_⟩, ?_⟩
  · intro r hr
    apply allPhotons_lite_mem fp evt r
    rcases hr with hr | hr
    · cases hF : cfg.fMakeAllPhotonsTree
      · simp [hF] at hr
      · simpa [hF] using hr
    · cases hD : cfg.fMakeDetectedPhotonsTree
      · simp [hD] at hr
      · simp only [hD, if_true] at hr
        exact detectedFrom_subset cfg flat _ _ r hr
  · rw [hS.fThePhotonTreeAll]
    have e : allPhotons fp true ⟨ev, hits, [⟨ch, [(3, 10)]⟩]⟩ =
        List.replicate 10 ⟨ev, .finite 128, ch, 6⟩ := by
      have h6 : toFloat_t (toInt (3 * 2)) = 6 := by decide
      have h10 : Int.toNat 10 = 10 := rfl
      simp only [allPhotons, opDetPhotons, liteRows, if_true, List.map_cons, List.map_nil,
        List.flatMap_cons, List.flatMap_nil, List.append_nil, h6, h10]
    rw [e]

set_option maxRecDepth 8000 in
/-- Instance of the amended claim C7: the entry `(3, 10)`, processed in the state left by
`beginJob`, adds 10 rows with wavelength 128 and time `3 * 2` to the `AllPhotons` tree. -/
theorem analyze_lite_detail_rows_witness :
    (3 : Int).natAbs ≤ 2 ^ 23 ∧
      (bucketBody (exampleParameters 1) (fun _ => 0) beginJob (3, 10)).fThePhotonTreeAll =
        List.replicate 10
          { EventID := 0, Wavelength := .finite 128, OpChannel := 0,
            Time := ((3 * 2 : Int) : ℚ) } :=
  ⟨by decide,
    (analyze_lite_detail_rows ieee (exampleParameters 1) (fun _ => 0)
      { IsBuildJob := false, VoxID := 0, NProd := 1 } beginJob (3, 10) (3, 10)
      { event := 5, TheHitCollection := [], photonHandle := [] } 5 1 [] (by decide)).2.2.1.2.1⟩

/-- Claim C8.  For the same parameters, stream and state, one iteration of the bucketed
channel loop on `photon` and one iteration of the itemized channel loop on `expand photon`
leave the same counts in the per-channel and per-event members, the same four trees and the
same position in the stream; and bucketed `analyze` on an event leaves the same four trees,
per-event counts and position in the stream as itemized `analyze` on the event whose
channels are the expansions of its bucketed records.  The expansion turns each entry
`(bucket, count)` into `count` photons whose time is the `float` of `2 * bucket`, which is
`2 * bucket` itself when the buckets have an absolute value of at most `2^23`.  For `expand`
the itemized side is evaluated in exact arithmetic, in which the energy of its photons has
the wavelength 128; in any arithmetic `fp` both equalities hold for the expansion into
photons of an energy `E` for which the photon loop stores the wavelength 128, and in IEEE
arithmetic the energy `0x1.448548p-17` is one. -/
theorem analyze_lite_eq_expanded (fp : Arithmetic) (cfg : Parameters) (flat : Nat → ℚ)
    (pvs : PhotonVisibilityService) (s : SimPhotonCounter) (photon : SimPhotonsLite)
    (ev : Int) (hits : List (Int × List OnePhoton)) (lites : List SimPhotonsLite) (E : ℚ) :
    ((liteOpDetBody cfg flat s photon).fCountOpDetAll =
        (opDetBody exactArithmetic cfg flat pvs s (expand photon)).fCountOpDetAll ∧
      (liteOpDetBody cfg flat s photon).fCountOpDetDetected =
        (opDetBody exactArithmetic cfg flat pvs s (expand photon)).fCountOpDetDetected ∧
      (liteOpDetBody cfg flat s photon).fCountEventAll =
        (opDetBody exactArithmetic cfg flat pvs s (expand photon)).fCountEventAll ∧
      (liteOpDetBody cfg flat s photon).fCountEventDetected =
        (opDetBody exactArithmetic cfg flat pvs s (expand photon)).fCountEventDetected ∧
      (liteOpDetBody cfg flat s photon).fThePhotonTreeAll =
        (opDetBody exactArithmetic cfg flat pvs s (expand photon)).fThePhotonTreeAll ∧
      (liteOpDetBody cfg flat s photon).fThePhotonTreeDetected =
        (opDetBody exactArithmetic cfg flat pvs s (expand photon)).fThePhotonTreeDetected ∧
      (liteOpDetBody cfg flat s photon).fTheOpDetTree =
        (opDetBody exactArithmetic cfg flat pvs s (expand photon)).fTheOpDetTree ∧
      (liteOpDetBody cfg flat s photon).fTheEventTree =
        (opDetBody exactArithmetic cfg flat pvs s (expand photon)).fTheEventTree ∧
      (liteOpDetBody cfg flat s photon).fired =
        (opDetBody exactArithmetic cfg flat pvs s (expand photon)).fired) ∧
    ((analyze fp cfg flat pvs true ⟨ev, hits, lites⟩ s).fCountEventAll =
        (analyze exactArithmetic cfg flat pvs false
          ⟨ev, lites.map (expand), lites⟩ s).fCountEventAll ∧
      (analyze fp cfg flat pvs true ⟨ev, hits, lites⟩ s).fCountEventDetected =
        (analyze exactArithmetic cfg flat pvs false
          ⟨ev, lites.map (expand), lites⟩ s).fCountEventDetected ∧
      (analyze fp cfg flat pvs true ⟨ev, hits, lites⟩ s).fThePhotonTreeAll =
        (analyze exactArithmetic cfg flat pvs false
          ⟨ev, lites.map (expand), lites⟩ s).fThePhotonTreeAll ∧
      (analyze fp cfg flat pvs true ⟨ev, hits, lites⟩ s).fThePhotonTreeDetected =
        (analyze exactArithmetic cfg flat pvs false
          ⟨ev, lites.map (expand), lites⟩ s).fThePhotonTreeDetected ∧
      (analyze fp cfg flat pvs true ⟨ev, hits, lites⟩ s).fTheOpDetTree =
        (analyze exactArithmetic cfg flat pvs false
          ⟨ev, lites.map (expand), lites⟩ s).fTheOpDetTree ∧
      (analyze fp cfg flat pvs true ⟨ev, hits, lites⟩ s).fTheEventTree =
        (analyze exactArithmetic cfg flat pvs false
          ⟨ev, lites.map (expand), lites⟩ s).fTheEventTree ∧
      (analyze fp cfg flat pvs true ⟨ev, hits, lites⟩ s).fired =
        (analyze exactArithmetic cfg flat pvs false
          ⟨ev, lites.map (expand), lites⟩ s).fired) ∧
    ((∀ it ∈ photon.DetectedPhotons, it.1.natAbs ≤ 2 ^ 23) →
      expand photon =
        (photon.OpChannel,
          photon.DetectedPhotons.flatMap fun it =>
            List.replicate it.2.toNat
              ⟨(2.0 * 3.142) * 0.000197 / 128, ((it.1 * 2 : Int) : ℚ)⟩)) ∧
    (fp.divide ((2.0 * 3.142) * 0.000197) E = .finite 128 →
      ((liteOpDetBody cfg flat s photon).fCountOpDetAll =
          (opDetBody fp cfg flat pvs s (expandWith E photon)).fCountOpDetAll ∧
        (liteOpDetBody cfg flat s photon).fCountOpDetDetected =
          (opDetBody fp cfg flat pvs s (expandWith E photon)).fCountOpDetDetected ∧
        (liteOpDetBody cfg flat s photon).fCountEventAll =
          (opDetBody fp cfg flat pvs s (expandWith E photon)).fCountEventAll ∧
        (liteOpDetBody cfg flat s photon).fCountEventDetected =
          (opDetBody fp cfg flat pvs s (expandWith E photon)).fCountEventDetected ∧
        (liteOpDetBody cfg flat s photon).fThePhotonTreeAll =
          (opDetBody fp cfg flat pvs s (expandWith E photon)).fThePhotonTreeAll ∧
        (liteOpDetBody cfg flat s photon).fThePhotonTreeDetected =
          (opDetBody fp cfg flat pvs s (expandWith E photon)).fThePhotonTreeDetected ∧
        (liteOpDetBody cfg flat s photon).fTheOpDetTree =
          (opDetBody fp cfg flat pvs s (expandWith E photon)).fTheOpDetTree ∧
        (liteOpDetBody cfg flat s photon).fTheEventTree =
          (opDetBody fp cfg flat pvs s (expandWith E photon)).fTheEventTree ∧
        (liteOpDetBody cfg flat s photon).fired =
          (opDetBody fp cfg flat pvs s (expandWith E photon)).fired) ∧
      ((analyze fp cfg flat pvs true ⟨ev, hits, lites⟩ s).fCountEventAll =
          (analyze fp cfg flat pvs false
            ⟨ev, lites.map (expandWith E), lites⟩ s).fCountEventAll ∧
        (analyze fp cfg flat pvs true ⟨ev, hits, lites⟩ s).fCountEventDetected =
          (analyze fp cfg flat pvs false
            ⟨ev, lites.map (expandWith E), lites⟩ s).fCountEventDetected ∧
        (analyze fp cfg flat pvs true ⟨ev, hits, lites⟩ s).fThePhotonTreeAll =
          (analyze fp cfg flat pvs false
            ⟨ev, lites.map (expandWith E), lites⟩ s).fThePhotonTreeAll ∧
        (analyze fp cfg flat pvs true ⟨ev, hits, lites⟩ s).fThePhotonTreeDetected =
          (analyze fp cfg flat pvs false
            ⟨ev, lites.map (expandWith E), lites⟩ s).fThePhotonTreeDetected ∧
        (analyze fp cfg flat pvs true ⟨ev, hits, lites⟩ s).fTheOpDetTree =
          (analyze fp cfg flat pvs false
            ⟨ev, lites.map (expandWith E), lites⟩ s).fTheOpDetTree ∧
        (analyze fp cfg flat pvs true ⟨ev, hits, lites⟩ s).fTheEventTree =
          (analyze fp cfg flat pvs false
            ⟨ev, lites.map (expandWith E), lites⟩ s).fTheEventTree ∧
        (analyze fp cfg flat pvs true ⟨ev, hits, lites⟩ s).fired =
          (analyze fp cfg flat pvs false
            ⟨ev, lites.map (expandWith E), lites⟩ s).fired)) ∧
    ieee.divide ((2.0 * 3.142) * 0.000197) (2658473 / 274877906944) = .finite 128 := by
  have h₁ := liteOpDetBody_tallied cfg flat s photon
  have key : ∀ (fp₀ : Arithmetic) (E₀ : ℚ),
      fp₀.divide ((2.0 * 3.142) * 0.000197) E₀ = .finite 128 →
      (liteOpDetBody cfg flat s photon).fCountOpDetAll =
          (opDetBody fp₀ cfg flat pvs s (expandWith E₀ photon)).fCountOpDetAll ∧
        (liteOpDetBody cfg flat s photon).fCountOpDetDetected =
          (opDetBody fp₀ cfg flat pvs s (expandWith E₀ photon)).fCountOpDetDetected ∧
        (liteOpDetBody cfg flat s photon).fCountEventAll =
          (opDetBody fp₀ cfg flat pvs s (expandWith E₀ photon)).fCountEventAll ∧
        (liteOpDetBody cfg flat s photon).fCountEventDetected =
          (opDetBody fp₀ cfg flat pvs s (expandWith E₀ photon)).fCountEventDetected ∧
        (liteOpDetBody cfg flat s photon).fThePhotonTreeAll =
          (opDetBody fp₀ cfg flat pvs s (expandWith E₀ photon)).fThePhotonTreeAll ∧
        (liteOpDetBody cfg flat s photon).fThePhotonTreeDetected =
          (opDetBody fp₀ cfg flat pvs s (expandWith E₀ photon)).fThePhotonTreeDetected ∧
        (liteOpDetBody cfg flat s photon).fTheOpDetTree =
          (opDetBody fp₀ cfg flat pvs s (expandWith E₀ photon)).fTheOpDetTree ∧
        (liteOpDetBody cfg flat s photon).fTheEventTree =
          (opDetBody fp₀ cfg flat pvs s (expandWith E₀ photon)).fTheEventTree ∧
        (liteOpDetBody cfg flat s photon).fired =
          (opDetBody fp₀ cfg flat pvs s (expandWith E₀ photon)).fired := by
    intro fp₀ E₀ hE
    have h₂ := opDetBody_tallied fp₀ cfg flat pvs s (expandWith E₀ photon)
    rw [photonRows_expandWith fp₀ E₀ hE] at h₂
    have hc : (expandWith E₀ photon).1 = photon.OpChannel := rfl
    rw [hc] at h₂
    refine ⟨?_, ?_, ?_, ?_, ?_, ?_, ?_, ?_, ?_⟩
    · rw [h₁.fCountOpDetAll, h₂.fCountOpDetAll]
    · rw [h₁.fCountOpDetDetected, h₂.fCountOpDetDetected]
    · rw [h₁.fCountEventAll, h₂.fCountEventAll]
    · rw [h₁.fCountEventDetected, h₂.fCountEventDetected]
    · rw [h₁.fThePhotonTreeAll, h₂.fThePhotonTreeAll]
    · rw [h₁.fThePhotonTreeDetected, h₂.fThePhotonTreeDetected]
    · rw [h₁.fTheOpDetTree, h₂.fTheOpDetTree]
    · rw [h₁.fTheEventTree, h₂.fTheEventTree]
    · rw [h₁.fired, h₂.fired]
  have hA := analyze_analyzed fp cfg flat pvs true ⟨ev, hits, lites⟩ s
  have keyE : ∀ (fp₀ : Arithmetic) (E₀ : ℚ),
      fp₀.divide ((2.0 * 3.142) * 0.000197) E₀ = .finite 128 →
      (analyze fp cfg flat pvs true ⟨ev, hits, lites⟩ s).fCountEventAll =
          (analyze fp₀ cfg flat pvs false
            ⟨ev, lites.map (expandWith E₀), lites⟩ s).fCountEventAll ∧
        (analyze fp cfg flat pvs true ⟨ev, hits, lites⟩ s).fCountEventDetected =
          (analyze fp₀ cfg flat pvs false
            ⟨ev, lites.map (expandWith E₀), lites⟩ s).fCountEventDetected ∧
        (analyze fp cfg flat pvs true ⟨ev, hits, lites⟩ s).fThePhotonTreeAll =
          (analyze fp₀ cfg flat pvs false
            ⟨ev, lites.map (expandWith E₀), lites⟩ s).fThePhotonTreeAll ∧
        (analyze fp cfg flat pvs true ⟨ev, hits, lites⟩ s).fThePhotonTreeDetected =
          (analyze fp₀ cfg flat pvs false
            ⟨ev, lites.map (expandWith E₀), lites⟩ s).fThePhotonTreeDetected ∧
        (analyze fp cfg flat pvs true ⟨ev, hits, lites⟩ s).fTheOpDetTree =
          (analyze fp₀ cfg flat pvs false
            ⟨ev, lites.map (expandWith E₀), lites⟩ s).fTheOpDetTree ∧
        (analyze fp cfg flat pvs true ⟨ev, hits, lites⟩ s).fTheEventTree =
          (analyze fp₀ cfg flat pvs false
            ⟨ev, lites.map (expandWith E₀), lites⟩ s).fTheEventTree ∧
        (analyze fp cfg flat pvs true ⟨ev, hits, lites⟩ s).fired =
          (analyze fp₀ cfg flat pvs false
            ⟨ev, lites.map (expandWith E₀), lites⟩ s).fired := by
    intro fp₀ E₀ hE
    have hB := analyze_analyzed fp₀ cfg flat pvs false
      ⟨ev, lites.map (expandWith E₀), lites⟩ s
    have ho := opDetPhotons_expandWith fp fp₀ E₀ hE ev hits lites
    have e₁ := hB.fCountEventAll
    have e₂ := hB.fCountEventDetected
    have e₃ := hB.fThePhotonTreeAll
    have e₄ := hB.fThePhotonTreeDetected
    have e₅ := hB.fTheOpDetTree
    have e₆ := hB.fTheEventTree
    have e₇ := hB.fired
    unfold allPhotons at e₃ e₄ e₇
    rw [ho] at e₁ e₂ e₃ e₄ e₅ e₇
    have c₁ : (analyze fp cfg flat pvs true ⟨ev, hits, lites⟩ s).fCountEventAll =
        (analyze fp₀ cfg flat pvs false
          ⟨ev, lites.map (expandWith E₀), lites⟩ s).fCountEventAll := by
      rw [hA.fCountEventAll, e₁]
    have c₂ : (analyze fp cfg flat pvs true ⟨ev, hits, lites⟩ s).fCountEventDetected =
        (analyze fp₀ cfg flat pvs false
          ⟨ev, lites.map (expandWith E₀), lites⟩ s).fCountEventDetected := by
      rw [hA.fCountEventDetected, e₂]
    refine ⟨c₁, c₂, ?_, ?_, ?_, ?_, ?_⟩
    · rw [hA.fThePhotonTreeAll, e₃]; rfl
    · rw [hA.fThePhotonTreeDetected, e₄]; rfl
    · rw [hA.fTheOpDetTree, e₅]
    · rw [hA.fTheEventTree, e₆, c₁, c₂]
    · rw [hA.fired, e₇]; rfl
  exact ⟨key exactArithmetic _ (wavelength_expand 0), keyE exactArithmetic _ (wavelength_expand 0),
    expand_exact photon, fun hE => ⟨key fp E hE, keyE fp E hE⟩, ieee_divide_128⟩

/-- Claim C9, as stated, fails: in a library-build job with `NProd = 0`, itemized `analyze`
on the event 5 with two photons in channel 1 calls `SetLibraryEntry` for that channel, with
the non-finite result of the division `2 / 0` as value. -/
theorem analyze_library_entry_with_zero_produced :
    (analyze ieee (exampleParameters 1) (fun _ => 1 / 2)
      { IsBuildJob := true, VoxID := 7, NProd := 0 } false
      { event := 5,
        TheHitCollection :=
          [(1, [{ Energy := 1 / 131072, Time := 3 }, { Energy := 1 / 262144, Time := 4 }])],
        photonHandle := [] }
      beginJob).library = [{ VoxID := 7, OpChannel := 1, Visibility := none }] := by
  have h := (analyze_analyzed ieee (exampleParameters 1) (fun _ => 1 / 2)
    { IsBuildJob := true, VoxID := 7, NProd := 0 } false
    { event := 5,
      TheHitCollection :=
        [(1, [{ Energy := 1 / 131072, Time := 3 }, { Energy := 1 / 262144, Time := 4 }])],
      photonHandle := [] }
    beginJob).library
  rw [h]
  simp [libraryCalls, fdiv, beginJob]

/-- Claim C9, amended.  In a library-build job with `NProd = 0`, itemized `analyze` calls
`SetLibraryEntry` once for every channel of the event, in the order of the collection, with
the voxel, the channel and the non-finite result of the division by zero; so it writes no
entry only for an event without channels. -/
theorem analyze_library_zero_produced (fp : Arithmetic) (cfg : Parameters) (flat : Nat → ℚ)
    (pvs : PhotonVisibilityService) (evt : Event) (s : SimPhotonCounter)
    (hB : pvs.IsBuildJob = true) (hN : pvs.NProd = 0) :
    (analyze fp cfg flat pvs false evt s).library =
      s.library ++ evt.TheHitCollection.map fun itOpDet => ⟨pvs.VoxID, itOpDet.1, none⟩ := by
  rw [(analyze_analyzed fp cfg flat pvs false evt s).library]
  simp [libraryCalls, fdiv, hB, hN]

/-- Instance of the amended claim C9: a library-build job with `NProd = 0` and the itemized
event 5 with the channels 1 (one photon) and 2 (no photon). -/
theorem analyze_library_zero_produced_witness :
    (analyze ieee (exampleParameters 1) (fun _ => 1 / 2)
      { IsBuildJob := true, VoxID := 7, NProd := 0 } false
      { event := 5,
        TheHitCollection := [(1, [{ Energy := 1 / 131072, Time := 3 }]), (2, [])],
        photonHandle := [] }
      beginJob).library =
      [{ VoxID := 7, OpChannel := 1, Visibility := none },
        { VoxID := 7, OpChannel := 2, Visibility := none }] :=
  analyze_library_zero_produced ieee (exampleParameters 1) (fun _ => 1 / 2)
    { IsBuildJob := true, VoxID := 7, NProd := 0 }
    { event := 5,
      TheHitCollection := [(1, [{ Energy := 1 / 131072, Time := 3 }]), (2, [])],
      photonHandle := [] }
    beginJob rfl rfl

/-- Claim C10 on the code.  Bucketed `analyze` never calls `SetLibraryEntry`, whatever the
service answers, while itemized `analyze` in a library-build job calls it once per channel
with the voxel, the channel and `count_all / NProd`, for every `fQE`, band and stream.  In a
library-build job with `NProd = 100`, the bucketed event 5 with 10 photons in channel 1
leaves the library empty; the itemized event it stands for records `(7, 1, 10 / 100)`. -/
theorem analyze_lite_writes_no_library (fp : Arithmetic) (cfg : Parameters) (flat : Nat → ℚ)
    (pvs : PhotonVisibilityService) (evt : Event) (s : SimPhotonCounter) :
    (analyze fp cfg flat pvs true evt s).library = s.library ∧
      (analyze fp cfg flat pvs false evt s).library =
        s.library ++
          (if pvs.IsBuildJob then
            evt.TheHitCollection.map fun itOpDet =>
              ⟨pvs.VoxID, itOpDet.1, fdiv (itOpDet.2.length : ℚ) pvs.NProd⟩
          else []) ∧
      (analyze fp (exampleParameters 1) (fun _ => 1 / 2)
        { IsBuildJob := true, VoxID := 7, NProd := 100 } true
        { event := 5, TheHitCollection := [],
          photonHandle := [{ OpChannel := 1, DetectedPhotons := [(3, 10)] }] }
        beginJob).library = [] ∧
      (analyze fp (exampleParameters 1) (fun _ => 1 / 2)
        { IsBuildJob := true, VoxID := 7, NProd := 100 } false
        { event := 5,
          TheHitCollection := [expand { OpChannel := 1, DetectedPhotons := [(3, 10)] }],
          photonHandle := [] }
        beginJob).library =
        [{ VoxID := 7, OpChannel := 1, Visibility := some (10 / 100) }] := by
  have hA := (analyze_analyzed fp cfg flat pvs true evt s).library
  have hB := (analyze_analyzed fp cfg flat pvs false evt s).library
  have hC := (analyze_analyzed fp (exampleParameters 1) (fun _ => 1 / 2)
    { IsBuildJob := true, VoxID := 7, NProd := 100 } false
    { event := 5,
      TheHitCollection := [expand { OpChannel := 1, DetectedPhotons := [(3, 10)] }],
      photonHandle := [] }
    beginJob).library
  have hD := (analyze_analyzed fp (exampleParameters 1) (fun _ => 1 / 2)
    { IsBuildJob := true, VoxID := 7, NProd := 100 } true
    { event := 5, TheHitCollection := [],
      photonHandle := [{ OpChannel := 1, DetectedPhotons := [(3, 10)] }] }
    beginJob).library
  refine ⟨by simpa using hA, ?_, by simpa [beginJob] using hD, ?_⟩
  · rw [hB]; rfl
  · rw [hC]
    have h10 : Int.toNat 10 = 10 := rfl
    simp [libraryCalls, fdiv, expand, expandWith, h10, beginJob]

/-- Claim C11, as stated, fails: for the energy `1.2394e-3` both photon loops compute, in
exact arithmetic, the wavelength `309487 / 309850`, about `0.9988`, which is not within 1% of
1000. -/
theorem photon_wavelength_not_1000 :
    (photonBody exactArithmetic (exampleParameters 1) (fun _ => 1 / 2) beginJob
        { Energy := 1.2394e-3, Time := 0 }).fWavelength = .finite (309487 / 309850) ∧
      (photonBodyVerbose exactArithmetic (exampleParameters 1) (fun _ => 1 / 2) beginJob
        { Energy := 1.2394e-3, Time := 0 }).fWavelength = .finite (309487 / 309850) ∧
      ¬ |(309487 / 309850 : ℚ) - 1000| ≤ 1000 / 100 := by
  have h := photonBody_fWavelength exactArithmetic (exampleParameters 1) (fun _ => 1 / 2)
    beginJob { Energy := 1.2394e-3, Time := 0 }
  have e : wavelength exactArithmetic { Energy := 1.2394e-3, Time := 0 } =
      .finite (309487 / 309850) := by
    rw [wavelength_eq _ (by norm_num)]
    norm_num
  rw [h.1, h.2, e]
  refine ⟨rfl, rfl, ?_⟩
  norm_num [abs_le]

/-- Claim C11, amended.  In exact arithmetic, for a photon of energy `E > 0` both photon
loops compute the wavelength `2 * 3.142 * 0.000197 / E`, a positive number whose product with
`E` is `2 * 3.142 * 0.000197`, and this is the wavelength of the row added to the `AllPhotons`
tree.  For `E = 1.2394e-3` the wavelength is within 1% of 1; it is within 1% of 1000 for
`E = 1.2394e-6`. -/
theorem photon_wavelength (cfg : Parameters) (flat : Nat → ℚ) (s : SimPhotonCounter)
    (Phot : OnePhoton) (t : ℚ) (hE : 0 < Phot.Energy) :
    (photonBody exactArithmetic cfg flat s Phot).fWavelength =
        .finite (2 * (3142 / 1000) * (197 / 1000000) / Phot.Energy) ∧
      (photonBodyVerbose exactArithmetic cfg flat s Phot).fWavelength =
        .finite (2 * (3142 / 1000) * (197 / 1000000) / Phot.Energy) ∧
      (∃ w : ℚ, (photonBody exactArithmetic cfg flat s Phot).fWavelength = .finite w ∧
        w * Phot.Energy = 2 * (3142 / 1000) * (197 / 1000000) ∧ 0 < w) ∧
      (photonBody exactArithmetic cfg flat s Phot).fThePhotonTreeAll =
        s.fThePhotonTreeAll ++
          (if cfg.fMakeAllPhotonsTree then
            [⟨s.fEventID, .finite (2 * (3142 / 1000) * (197 / 1000000) / Phot.Energy),
              s.fOpChannel, Phot.Time⟩]
          else []) ∧
      (∃ w : ℚ,
        (photonBody exactArithmetic cfg flat s { Energy := 1.2394e-3, Time := t }).fWavelength =
          .finite w ∧ |w - 1| ≤ 1 / 100) ∧
      (∃ w : ℚ,
        (photonBody exactArithmetic cfg flat s { Energy := 1.2394e-6, Time := t }).fWavelength =
          .finite w ∧ |w - 1000| ≤ 1000 / 100) := by
  have h := photonBody_fWavelength exactArithmetic cfg flat s Phot
  have hR := photonBody_recorded exactArithmetic cfg flat s Phot
  have hne : Phot.Energy ≠ 0 := ne_of_gt hE
  have e := wavelength_eq Phot hne
  have h₁ := (photonBody_fWavelength exactArithmetic cfg flat s
    { Energy := 1.2394e-3, Time := t }).1
  have h₂ := (photonBody_fWavelength exactArithmetic cfg flat s
    { Energy := 1.2394e-6, Time := t }).1
  rw [wavelength_eq _ (by norm_num)] at h₁ h₂
  refine ⟨by rw [h.1, e], by rw [h.2, e], ⟨_, by rw [h.1, e], ?_, ?_⟩, ?_, ⟨_, h₁, ?_⟩,
    ⟨_, h₂, ?_⟩⟩
  · field_simp
    ring
  · positivity
  · rw [hR.fThePhotonTreeAll, e]
  · norm_num [abs_le]
  · norm_num [abs_le]

/-- Instance of the amended claim C11: the photon of energy `1.2394e-3`, whose wavelength
times its energy is `2 * 3.142 * 0.000197`. -/
theorem photon_wavelength_witness :
    (0 : ℚ) < 1.2394e-3 ∧
      ∃ w : ℚ,
        (photonBody exactArithmetic (exampleParameters 1) (fun _ => 1 / 2) beginJob
          { Energy := 1.2394e-3, Time := 0 }).fWavelength = .finite w ∧
          w * 1.2394e-3 = 2 * (3142 / 1000) * (197 / 1000000) ∧ 0 < w :=
  ⟨by norm_num,
    (photon_wavelength (exampleParameters 1) (fun _ => 1 / 2) beginJob
      { Energy := 1.2394e-3, Time := 0 } 0 (by norm_num)).2.2.1⟩

/-- Claim C12.  For every verbosity `v`, also above 3, and the same tree switches, quantum
efficiency, band, stream, service answers, event (in either representation) and state,
`analyze` leaves the same four trees (detail rows, per-channel tallies, per-event tally), the
same per-event and per-channel counts, the same library calls and the same position in the
stream as with verbosity 0; so does one iteration of either channel loop.  The two states
differ at most in what was written to `std::cout`. -/
theorem analyze_verbosity_no_effect (fp : Arithmetic) (cfg : Parameters) (v : Int) (flat : Nat → ℚ)
    (pvs : PhotonVisibilityService) (fUseLitePhotons : Bool) (evt : Event)
    (s s₀ : SimPhotonCounter) (itOpDet : Int × List OnePhoton) (photon : SimPhotonsLite) :
    ((analyze fp { cfg with fVerbosity := v } flat pvs fUseLitePhotons evt s).fThePhotonTreeAll =
        (analyze fp { cfg with fVerbosity := 0 } flat pvs fUseLitePhotons evt s).fThePhotonTreeAll ∧
      (analyze fp { cfg with fVerbosity := v } flat pvs fUseLitePhotons evt s).fThePhotonTreeDetected =
        (analyze fp { cfg with fVerbosity := 0 } flat pvs fUseLitePhotons evt
          s).fThePhotonTreeDetected ∧
      (analyze fp { cfg with fVerbosity := v } flat pvs fUseLitePhotons evt s).fTheOpDetTree =
        (analyze fp { cfg with fVerbosity := 0 } flat pvs fUseLitePhotons evt s).fTheOpDetTree ∧
      (analyze fp { cfg with fVerbosity := v } flat pvs fUseLitePhotons evt s).fTheEventTree =
        (analyze fp { cfg with fVerbosity := 0 } flat pvs fUseLitePhotons evt s).fTheEventTree ∧
      (analyze fp { cfg with fVerbosity := v } flat pvs fUseLitePhotons evt s).fCountEventAll =
        (analyze fp { cfg with fVerbosity := 0 } flat pvs fUseLitePhotons evt s).fCountEventAll ∧
      (analyze fp { cfg with fVerbosity := v } flat pvs fUseLitePhotons evt s).fCountEventDetected =
        (analyze fp { cfg with fVerbosity := 0 } flat pvs fUseLitePhotons evt
          s).fCountEventDetected ∧
      (analyze fp { cfg with fVerbosity := v } flat pvs fUseLitePhotons evt s).library =
        (analyze fp { cfg with fVerbosity := 0 } flat pvs fUseLitePhotons evt s).library ∧
      (analyze fp { cfg with fVerbosity := v } flat pvs fUseLitePhotons evt s).fired =
        (analyze fp { cfg with fVerbosity := 0 } flat pvs fUseLitePhotons evt s).fired) ∧
    ((opDetBody fp { cfg with fVerbosity := v } flat pvs s₀ itOpDet).fCountOpDetAll =
        (opDetBody fp { cfg with fVerbosity := 0 } flat pvs s₀ itOpDet).fCountOpDetAll ∧
      (opDetBody fp { cfg with fVerbosity := v } flat pvs s₀ itOpDet).fCountOpDetDetected =
        (opDetBody fp { cfg with fVerbosity := 0 } flat pvs s₀ itOpDet).fCountOpDetDetected ∧
      (liteOpDetBody { cfg with fVerbosity := v } flat s₀ photon).fCountOpDetAll =
        (liteOpDetBody { cfg with fVerbosity := 0 } flat s₀ photon).fCountOpDetAll ∧
      (liteOpDetBody { cfg with fVerbosity := v } flat s₀ photon).fCountOpDetDetected =
        (liteOpDetBody { cfg with fVerbosity := 0 } flat s₀ photon).fCountOpDetDetected) ∧
    quiet (analyze fp { cfg with fVerbosity := v } flat pvs fUseLitePhotons evt s) =
      quiet (analyze fp { cfg with fVerbosity := 0 } flat pvs fUseLitePhotons evt s) := by
  have hA := analyze_quiet fp cfg v flat pvs fUseLitePhotons evt s
  have hB := opDetBody_verbosity fp cfg v flat pvs s₀ itOpDet photon
  have a₁ := congrArg SimPhotonCounter.fThePhotonTreeAll hA
  have a₂ := congrArg SimPhotonCounter.fThePhotonTreeDetected hA
  have a₃ := congrArg SimPhotonCounter.fTheOpDetTree hA
  have a₄ := congrArg SimPhotonCounter.fTheEventTree hA
  have a₅ := congrArg SimPhotonCounter.fCountEventAll hA
  have a₆ := congrArg SimPhotonCounter.fCountEventDetected hA
  have a₇ := congrArg SimPhotonCounter.library hA
  have a₈ := congrArg SimPhotonCounter.fired hA
  have b₁ := congrArg SimPhotonCounter.fCountOpDetAll hB.1
  have b₂ := congrArg SimPhotonCounter.fCountOpDetDetected hB.1
  have b₃ := congrArg SimPhotonCounter.fCountOpDetAll hB.2
  have b₄ := congrArg SimPhotonCounter.fCountOpDetDetected hB.2
  exact ⟨⟨a₁, a₂, a₃, a₄, a₅, a₆, a₇, a₈⟩, ⟨b₁, b₂, b₃, b₄⟩, hA⟩


end opdet
